import Mathlib

/-!
# ArtifactClient (src/artifact-client.js): a shallow embedding

The JavaScript class `ArtifactClient` is embedded as pure functions over an explicit
state (the trace of network requests made so far, the console warnings, and the
browser downloads triggered).  The remote service, the object store and the caller's
abort controller form the environment; they are a parameter (`World`) of every flow.

Platform facts the embedding relies on (they are behaviour of the browser, not of
the repository):
* a promise settles at most once; later `resolve`/`reject` calls are ignored;
* `AbortSignal` dispatches its `abort` event once, at the moment it becomes aborted;
  a listener added to a signal that is already aborted is never invoked;
* `xhr.abort()` dispatches neither `load` nor `error`;
* destructuring `null`/`undefined` throws, a missing property reads as `undefined`;
* a Number is an IEEE 754 binary64 value: `/` and `*` round the exact result to the
  nearest double, ties to even; `Math.round` gives the integer nearest to its
  argument, ties towards +∞, without a rounding error of its own.
-/

namespace ArtifactService

/-! ## JavaScript values -/

/-- Primitive JavaScript values that travel through the client: option values,
fields of parsed JSON bodies, URLs handed to `fetch`.  Numbers are integers. -/
inductive JVal where
  | undefined
  | null
  | bool (b : Bool)
  | num (n : Int)
  | str (s : String)
  deriving DecidableEq, Repr

/-- Truthiness of a value, as tested by `||` and `!`. -/
def JVal.truthy : JVal → Bool
  | .undefined => false
  | .null => false
  | .bool b => b
  | .num n => n != 0
  | .str s => s != ""

/-- String conversion used by template literals. -/
def JVal.toStr : JVal → String
  | .undefined => "undefined"
  | .null => "null"
  | .bool true => "true"
  | .bool false => "false"
  | .num n => toString n
  | .str s => s

/-- The expression `a || b`. -/
def JVal.or (a b : JVal) : JVal := if a.truthy then a else b

/-- A destructuring default `x = d`: the default applies exactly when the property
is absent, i.e. reads as `undefined`. -/
def JVal.dflt (v d : JVal) : JVal := if v = .undefined then d else v

/-- A plain object: its properties in insertion order. -/
abbrev JObj := List (String × JVal)

/-- Property read `o.k`; a missing property reads as `undefined`. -/
def JObj.get (o : JObj) (k : String) : JVal :=
  match o.find? (fun p => p.1 == k) with
  | some p => p.2
  | none => .undefined

/-- A thrown JavaScript exception: its `name` (the kind) and its `message`. -/
structure JsError where
  name : String
  message : String
  deriving DecidableEq, Repr

/-- The expression `new Error(msg)`. -/
def mkError (msg : String) : JsError := ⟨"Error", msg⟩

/-- The expression `new DOMException(msg, name)`. -/
def mkDOMException (msg name : String) : JsError := ⟨name, msg⟩

/-- The `TypeError` thrown by the engine (destructuring `null`, calling a missing method). -/
def mkTypeError (msg : String) : JsError := ⟨"TypeError", msg⟩

/-- State of a promise: still pending, fulfilled with a value, or rejected. -/
inductive Settled (α : Type) where
  | pending
  | fulfilled (a : α)
  | rejected (e : JsError)
  deriving DecidableEq, Repr

/-- Settling a promise: only a pending promise changes state. -/
def Settled.settle {α : Type} (p new : Settled α) : Settled α :=
  match p with
  | .pending => new
  | _ => p

/-! ## Files, requests, responses -/

/-- A browser `File`: `name`, `type` (the empty string when unknown) and `size`. -/
structure File where
  name : String
  type : String
  size : Nat
  deriving DecidableEq, Repr

inductive Method where
  | GET
  | POST
  | PUT
  deriving DecidableEq, Repr

/-- Payload of a request: nothing, the object handed to `JSON.stringify`, or a file. -/
inductive Body where
  | empty
  | json (o : JObj)
  | file (f : File)
  deriving DecidableEq, Repr

/-- One network request as issued by the client (`fetch` or `XMLHttpRequest`). -/
structure Request where
  method : Method
  url : JVal
  headers : List (String × String)
  body : Body
  deriving DecidableEq, Repr

/-- Bytes of a downloaded payload. -/
abbrev Blob := List Nat

/-- A parsed JSON body: a primitive, an object, or an array of records. -/
inductive Json where
  | prim (v : JVal)
  | obj (o : JObj)
  | arr (records : List JObj)
  deriving DecidableEq, Repr

/-- A `fetch` response: `ok`, `statusText`, and what `json()` and `blob()` give
(either may throw). -/
structure Response where
  ok : Bool
  statusText : String
  json : Except JsError Json
  blob : Except JsError Blob

/-- Outcome of awaiting `fetch(...)`: a response, or a thrown error. -/
inductive FetchOutcome where
  | response (r : Response)
  | threw (e : JsError)

/-! ## The transfer executor `_uploadToS3` -/

/-- An `AbortSignal` as seen when the executor starts: `aborted` tells whether it has
already been signalled at that moment. -/
structure AbortSignal where
  aborted : Bool
  deriving DecidableEq, Repr

/-- What happens, in order, while an XHR upload is outstanding: progress events of
`xhr.upload`, the terminal `load` (with `xhr.status`) or `error` event, and the
caller signalling the abort controller. -/
inductive XhrEvent where
  | progress (lengthComputable : Bool) (loaded total : Nat)
  | load (status : Nat)
  | error
  | abortCall
  deriving DecidableEq, Repr

/-! ### Numbers: IEEE 754 binary64 -/

/-- A JavaScript Number that is not negative (byte counts and what is computed from
them): a finite double, given by the rational it represents, `+Infinity`, or `NaN`. -/
inductive JsNumber where
  | fin (q : ℚ)
  | posInf
  | nan
  deriving DecidableEq, Repr

/-- Rounding of a rational to the nearest integer, ties to the even one. -/
def roundHalfEven (y : ℚ) : ℤ :=
  if y - ⌊y⌋ < 1 / 2 then ⌊y⌋
  else if 1 / 2 < y - ⌊y⌋ then ⌊y⌋ + 1
  else if ⌊y⌋ % 2 = 0 then ⌊y⌋ else ⌊y⌋ + 1

/-- Exponent of the unit in the last place of binary64 at a positive `x`: a double has
53 significant bits, and below `2 ^ (-1022)` the spacing stays `2 ^ (-1074)`
(subnormals). -/
def ulpExp (x : ℚ) : ℤ := max (Int.log 2 x - 52) (-1074)

/-- The multiple of the unit in the last place nearest to `x`, ties to even. -/
def nearestGrid (x : ℚ) : ℚ := (roundHalfEven (x / 2 ^ ulpExp x) : ℚ) * 2 ^ ulpExp x

/-- IEEE 754 round-to-nearest-even of a non-negative exact result to binary64; a result
that rounds to `2 ^ 1024` or more overflows to `+Infinity`. -/
def roundToDouble (x : ℚ) : JsNumber :=
  if x ≤ 0 then .fin 0
  else if nearestGrid x < 2 ^ (1024 : ℤ) then .fin (nearestGrid x)
  else .posInf

/-- The Number an `unsigned long long` attribute (`e.loaded`, `e.total`) reads as: the
double nearest to the integer. -/
def JsNumber.ofNat (n : Nat) : JsNumber := roundToDouble n

/-- The operator `/` on non-negative Numbers. -/
def JsNumber.div : JsNumber → JsNumber → JsNumber
  | .nan, _ => .nan
  | _, .nan => .nan
  | .posInf, .posInf => .nan
  | .posInf, .fin _ => .posInf
  | .fin _, .posInf => .fin 0
  | .fin a, .fin b =>
    if b = 0 then (if a = 0 then .nan else .posInf) else roundToDouble (a / b)

/-- The operator `*` on non-negative Numbers. -/
def JsNumber.mul : JsNumber → JsNumber → JsNumber
  | .nan, _ => .nan
  | _, .nan => .nan
  | .posInf, .posInf => .posInf
  | .posInf, .fin b => if b = 0 then .nan else .posInf
  | .fin a, .posInf => if a = 0 then .nan else .posInf
  | .fin a, .fin b => roundToDouble (a * b)

/-- The operator `<=` on non-negative Numbers; any comparison with `NaN` is false. -/
def JsNumber.le : JsNumber → JsNumber → Bool
  | .fin a, .fin b => decide (a ≤ b)
  | .fin _, .posInf => true
  | .posInf, .posInf => true
  | _, _ => false

/-- The function `Math.round` on non-negative Numbers: the nearest integer, ties
upwards; `NaN` and `+Infinity` are returned as they are. -/
def mathRound : JsNumber → JsNumber
  | .fin q => .fin ((⌊q + 1 / 2⌋ : ℤ) : ℚ)
  | x => x

/-- The expression `Math.round((e.loaded / e.total) * 100)`. -/
def percentOf (loaded total : Nat) : JsNumber :=
  mathRound (((JsNumber.ofNat loaded).div (JsNumber.ofNat total)).mul (.fin 100))

/-- State of one `_uploadToS3` call: the promise it returned, the values passed to
`onProgress` so far, whether `xhr.abort()` has been called, and whether the signal
has been signalled. -/
structure XhrState where
  promise : Settled Unit
  sink : List JsNumber
  xhrAborted : Bool
  signalAborted : Bool
  deriving DecidableEq, Repr

/-- The listeners installed by `_uploadToS3`, run on one event.  `onProgress` tells
whether a progress sink was supplied, `hasSignal` whether a signal was supplied. -/
def xhrStep (onProgress hasSignal : Bool) (st : XhrState) : XhrEvent → XhrState
  | .progress lengthComputable loaded total =>
    if onProgress then
      if lengthComputable then { st with sink := st.sink ++ [percentOf loaded total] }
      else st
    else st
  | .abortCall =>
    if hasSignal then
      -- the abort event is dispatched only when the signal was not aborted before
      if st.signalAborted then st
      else { st with
              signalAborted := true,
              xhrAborted := true,
              promise :=
                st.promise.settle (.rejected (mkDOMException "Upload cancelled" "AbortError")) }
    else st
  | .load status =>
    if status = 200 then { st with promise := st.promise.settle (.fulfilled ()) }
    else { st with promise :=
            st.promise.settle (.rejected (mkError ("S3 upload failed with status " ++ toString status))) }
  | .error =>
    { st with promise := st.promise.settle (.rejected (mkError "S3 upload failed")) }

/-- State right after the executor body has run (listeners installed, request sent). -/
def xhrInit (signal : Option AbortSignal) : XhrState :=
  { promise := .pending,
    sink := [],
    xhrAborted := false,
    signalAborted := match signal with
      | some s => s.aborted
      | none => false }

/-- The request `xhr.open('PUT', presignedUrl); xhr.setRequestHeader('Content-Type',
contentType); xhr.send(file)`. -/
def putRequest (presignedUrl : JVal) (file : File) (contentType : String) : Request :=
  { method := .PUT, url := presignedUrl,
    headers := [("Content-Type", contentType)], body := .file file }

/-- The method `_uploadToS3(presignedUrl, file, contentType, onProgress, signal)` run
against the events that occur while the request is outstanding. -/
def _uploadToS3 (_presignedUrl : JVal) (_file : File) (_contentType : String)
    (onProgress : Bool) (signal : Option AbortSignal) (events : List XhrEvent) : XhrState :=
  events.foldl (xhrStep onProgress signal.isSome) (xhrInit signal)

/-! ## The environment and the flow of one call -/

/-- The environment of a call: what each `fetch` gives (a function of the requests
made before it and of the request itself), and the events that occur while an XHR
upload is outstanding. -/
structure World where
  fetch : List Request → Request → FetchOutcome
  xhr : List Request → Request → List XhrEvent

/-- Observable state threaded through a call: the network requests made so far,
the values passed to the progress sink, the `console.warn` calls, and the browser
downloads triggered (the `download` attribute and the payload). -/
structure St where
  trace : List Request
  progress : List JsNumber
  warnings : List JsError
  saved : List (JVal × Blob)

/-- The state at the start of a call. -/
def St.init : St := { trace := [], progress := [], warnings := [], saved := [] }

/-- An `async` function body: from a state to the state of its promise and the new state. -/
def Flow (α : Type) : Type := St → Settled α × St

/-- Sequencing by `await`: the continuation runs only when the awaited promise is
fulfilled; a rejection propagates, a promise that never settles blocks for good. -/
def Flow.bind {α β : Type} (m : Flow α) (f : α → Flow β) : Flow β := fun s =>
  match m s with
  | (.fulfilled a, s1) => f a s1
  | (.rejected e, s1) => (.rejected e, s1)
  | (.pending, s1) => (.pending, s1)

instance : Monad Flow where
  pure a := fun s => (.fulfilled a, s)
  bind := Flow.bind

/-- The statement `throw e`. -/
def Flow.throw {α : Type} (e : JsError) : Flow α := fun s => (.rejected e, s)

/-- The statement `try m catch (error) h`. -/
def Flow.tryCatch {α : Type} (m : Flow α) (h : JsError → Flow α) : Flow α := fun s =>
  match m s with
  | (.rejected e, s1) => h e s1
  | r => r

/-- Awaiting a body reader (`response.json()`, `response.blob()`). -/
def Flow.ofExcept {α : Type} : Except JsError α → Flow α
  | .ok a => pure a
  | .error e => Flow.throw e

/-- The call `await fetch(...)`: the request joins the trace, the world answers. -/
def fetch (w : World) (req : Request) : Flow Response := fun s =>
  match w.fetch s.trace req with
  | .response r => (.fulfilled r, { s with trace := s.trace ++ [req] })
  | .threw e => (.rejected e, { s with trace := s.trace ++ [req] })

/-- The call `console.warn(..., err)`. -/
def consoleWarn (err : JsError) : Flow Unit := fun s =>
  (.fulfilled (), { s with warnings := s.warnings ++ [err] })

/-- Object destructuring `const { a, b } = value`: throws on `null` and `undefined`;
any other non-object has none of the properties. -/
def Json.destructure : Json → Except JsError JObj
  | .obj o => .ok o
  | .prim .undefined => .error (mkTypeError "Cannot destructure undefined")
  | .prim .null => .error (mkTypeError "Cannot destructure null")
  | .prim _ => .ok []
  | .arr _ => .ok []

/-- The call `await this._uploadToS3(...)` inside a flow: the PUT joins the trace, the
world supplies the events, the sink values are recorded. -/
def awaitUploadToS3 (w : World) (presignedUrl : JVal) (file : File) (contentType : String)
    (onProgress : Bool) (signal : Option AbortSignal) : Flow Unit := fun s =>
  let req := putRequest presignedUrl file contentType
  let r := _uploadToS3 presignedUrl file contentType onProgress signal (w.xhr s.trace req)
  (r.promise, { s with trace := s.trace ++ [req], progress := s.progress ++ r.sink })

/-- The browser download triggered through a temporary anchor element. -/
def triggerDownload (download : JVal) (blob : Blob) : Flow Unit := fun s =>
  (.fulfilled (), { s with saved := s.saved ++ [(download, blob)] })

/-! ## The client -/

structure ArtifactClient where
  baseUrl : String

/-- The constructor: `this.baseUrl = baseUrl.replace(/\/$/, '')`. -/
def ArtifactClient.constructor (baseUrl : String) : ArtifactClient :=
  { baseUrl := if baseUrl.endsWith "/" then baseUrl.dropRight 1 else baseUrl }

/-- Options of `uploadFile` / `createUploadToken`; an absent option is `undefined`.
`onProgress` tells whether a callback was supplied. -/
structure UploadOptions where
  maxUploads : JVal := .undefined
  validFrom : JVal := .undefined
  validTo : JVal := .undefined
  allowedCIDR : JVal := .undefined
  onProgress : Bool := false
  signal : Option AbortSignal := none

/-- Options of `downloadFile` / `createDownloadToken`; an absent option is `undefined`. -/
structure DownloadOptions where
  maxDownloads : JVal := .undefined
  validFrom : JVal := .undefined
  validTo : JVal := .undefined
  allowedCIDR : JVal := .undefined

/-- Result object of `uploadFile`. -/
structure UploadResult where
  uuid : JVal
  filename : String
  size : Nat
  contentType : String
  token : JVal
  deriving DecidableEq, Repr

/-- Result object of `uploadFileWithTokenUrl`. -/
structure TokenUrlUploadResult where
  uuid : JVal
  filename : String
  size : Nat
  deriving DecidableEq, Repr

def jsonHeaders : List (String × String) := [("Content-Type", "application/json")]

/-- The expression `file.type || 'application/octet-stream'`. -/
def declaredContentType (file : File) : String :=
  if file.type != "" then file.type else "application/octet-stream"

/-- The token request of `uploadFile` (lines 59-68). -/
def uploadFile.tokenRequest (c : ArtifactClient) (options : UploadOptions) : Request :=
  let maxUploads := options.maxUploads.dflt (.num 1)
  let validFrom := options.validFrom.dflt .null
  let validTo := options.validTo.dflt .null
  let allowedCIDR := options.allowedCIDR.dflt .null
  { method := .POST
    url := .str (c.baseUrl ++ "/genUploadPresignedURL")
    headers := jsonHeaders
    body := .json [("max_uploads", maxUploads), ("valid_from", validFrom),
                   ("valid_to", validTo), ("allowed_cidr", allowedCIDR)] }

/-- The presigned-URL request of `uploadFile` (lines 77-85). -/
def uploadFile.presignedRequest (upload_url : JVal) (file : File) : Request :=
  { method := .POST
    url := upload_url
    headers := jsonHeaders
    body := .json [("filename", .str file.name),
                   ("content_type", .str (declaredContentType file)),
                   ("size", .num file.size)] }

/-- The method `uploadFile(file, options)`. -/
def uploadFile (c : ArtifactClient) (w : World) (file : File) (options : UploadOptions) :
    Flow UploadResult :=
  let onProgress := options.onProgress
  Flow.tryCatch
    (do
      -- Step 1: Generate upload token
      let tokenResponse ← fetch w (uploadFile.tokenRequest c options)
      if !tokenResponse.ok then
        Flow.throw (mkError ("Failed to generate upload token: " ++ tokenResponse.statusText))
      else
        let o ← Flow.ofExcept (tokenResponse.json >>= Json.destructure)
        let token := o.get "token"
        let upload_url := o.get "upload_url"
        -- Step 2: Request presigned upload URL
        let presignedResponse ← fetch w (uploadFile.presignedRequest upload_url file)
        if !presignedResponse.ok then
          Flow.throw (mkError ("Failed to get presigned URL: " ++ presignedResponse.statusText))
        else
          let p ← Flow.ofExcept (presignedResponse.json >>= Json.destructure)
          let presigned_url := p.get "presigned_url"
          let uuid := p.get "uuid"
          -- Step 3: Upload file directly to S3
          awaitUploadToS3 w presigned_url file file.type onProgress options.signal
          pure { uuid := uuid, filename := file.name, size := file.size,
                 contentType := declaredContentType file, token := token })
    (fun error => Flow.throw (mkError ("Upload failed: " ++ error.message)))

/-- The token request of `downloadFile` (lines 137-147). -/
def downloadFile.tokenRequest (c : ArtifactClient) (artifactUuid : String)
    (options : DownloadOptions) : Request :=
  let maxDownloads := options.maxDownloads.dflt (.num 1)
  let validFrom := options.validFrom.dflt .null
  let validTo := options.validTo.dflt .null
  let allowedCIDR := options.allowedCIDR.dflt .null
  { method := .POST
    url := .str (c.baseUrl ++ "/genDownloadPresignedURL")
    headers := jsonHeaders
    body := .json [("artifact_uuid", .str artifactUuid), ("max_downloads", maxDownloads),
                   ("valid_from", validFrom), ("valid_to", validTo),
                   ("allowed_cidr", allowedCIDR)] }

/-- A plain `fetch(url)`: a GET without headers or body. -/
def getRequest (url : JVal) : Request :=
  { method := .GET, url := url, headers := [], body := .empty }

/-- The method `downloadFile(artifactUuid, filename = null, options)`. -/
def downloadFile (c : ArtifactClient) (w : World) (artifactUuid : String)
    (filename : JVal := .null) (options : DownloadOptions := {}) : Flow Unit :=
  Flow.tryCatch
    (do
      -- Step 1: Generate download token
      let tokenResponse ← fetch w (downloadFile.tokenRequest c artifactUuid options)
      if !tokenResponse.ok then
        Flow.throw (mkError ("Failed to generate download token: " ++ tokenResponse.statusText))
      else
        let o ← Flow.ofExcept (tokenResponse.json >>= Json.destructure)
        let presigned_url := o.get "presigned_url"
        -- Step 2: Download file
        let response ← fetch w (getRequest presigned_url)
        if !response.ok then
          Flow.throw (mkError ("Download failed: " ++ response.statusText))
        else
          -- Step 3: Trigger browser download
          let blob ← Flow.ofExcept response.blob
          triggerDownload (filename.or (.str artifactUuid)) blob)
    (fun error => Flow.throw (mkError ("Download failed: " ++ error.message)))

/-- The expression `artifacts.find(a => a.uuid === artifactUuid)`; only an array has
the method `find`. -/
def Json.find (artifacts : Json) (artifactUuid : String) : Except JsError (Option JObj) :=
  match artifacts with
  | .arr records => .ok (records.find? (fun a => a.get "uuid" == .str artifactUuid))
  | _ => .error (mkTypeError "artifacts.find is not a function")

/-- The method `getArtifactMetadata(artifactUuid)`. -/
def getArtifactMetadata (c : ArtifactClient) (w : World) (artifactUuid : String) : Flow JObj := do
  let response ← fetch w (getRequest (.str (c.baseUrl ++ "/artifact-service/v1/artifacts/")))
  if !response.ok then
    Flow.throw (mkError ("Failed to fetch artifacts: " ++ response.statusText))
  else
    let artifacts ← Flow.ofExcept response.json
    let found ← Flow.ofExcept (artifacts.find artifactUuid)
    match found with
    | none => Flow.throw (mkError ("Artifact not found: " ++ artifactUuid))
    | some artifact => pure artifact

/-- The method `createUploadToken(options)`. -/
def createUploadToken (c : ArtifactClient) (w : World) (options : UploadOptions := {}) :
    Flow Json := do
  let maxUploads := options.maxUploads.dflt (.num 1)
  let validFrom := options.validFrom.dflt .null
  let validTo := options.validTo.dflt .null
  let allowedCIDR := options.allowedCIDR.dflt .null
  let response ← fetch w
    { method := .POST
      url := .str (c.baseUrl ++ "/genUploadPresignedURL")
      headers := jsonHeaders
      body := .json [("max_uploads", maxUploads), ("valid_from", validFrom),
                     ("valid_to", validTo), ("allowed_cidr", allowedCIDR)] }
  if !response.ok then
    Flow.throw (mkError ("Failed to create upload token: " ++ response.statusText))
  else
    Flow.ofExcept response.json

/-- The method `createDownloadToken(artifactUuid, options)`. -/
def createDownloadToken (c : ArtifactClient) (w : World) (artifactUuid : String)
    (options : DownloadOptions := {}) : Flow Json := do
  let maxDownloads := options.maxDownloads.dflt (.num 1)
  let validFrom := options.validFrom.dflt .null
  let validTo := options.validTo.dflt .null
  let allowedCIDR := options.allowedCIDR.dflt .null
  let response ← fetch w
    { method := .POST
      url := .str (c.baseUrl ++ "/genDownloadPresignedURL")
      headers := jsonHeaders
      body := .json [("artifact_uuid", .str artifactUuid), ("max_downloads", maxDownloads),
                     ("valid_from", validFrom), ("valid_to", validTo),
                     ("allowed_cidr", allowedCIDR)] }
  if !response.ok then
    Flow.throw (mkError ("Failed to create download token: " ++ response.statusText))
  else
    Flow.ofExcept response.json

/-- The request of `completeUpload(uuid)`: a POST without headers or body. -/
def completeUpload.request (c : ArtifactClient) (uuid : JVal) : Request :=
  { method := .POST
    url := .str (c.baseUrl ++ "/artifact-service/v1/artifacts/" ++ uuid.toStr ++ "/complete")
    headers := []
    body := .empty }

/-- The method `completeUpload(uuid)`. -/
def completeUpload (c : ArtifactClient) (w : World) (uuid : JVal) : Flow Json := do
  let response ← fetch w (completeUpload.request c uuid)
  if !response.ok then
    Flow.throw (mkError ("Failed to marks upload as complete: " ++ response.statusText))
  else
    Flow.ofExcept response.json

/-- The presigned-URL request of `uploadFileWithTokenUrl` (lines 310-319). -/
def uploadFileWithTokenUrl.presignedRequest (uploadTokenUrl : JVal) (file : File) : Request :=
  { method := .POST
    url := uploadTokenUrl
    headers := jsonHeaders
    body := .json [("filename", .str file.name),
                   ("content_type", .str (declaredContentType file)),
                   ("size", .num file.size)] }

/-- The method `uploadFileWithTokenUrl(uploadTokenUrl, file, onProgress = null, options)`. -/
def uploadFileWithTokenUrl (c : ArtifactClient) (w : World) (uploadTokenUrl : JVal)
    (file : File) (onProgress : Bool := false) (options : UploadOptions := {}) :
    Flow TokenUrlUploadResult := do
  -- Step 1: Request presigned S3 URL
  let presignedResponse ← fetch w (uploadFileWithTokenUrl.presignedRequest uploadTokenUrl file)
  if !presignedResponse.ok then
    Flow.throw (mkError ("Failed to get presigned URL: " ++ presignedResponse.statusText))
  else
    let p ← Flow.ofExcept (presignedResponse.json >>= Json.destructure)
    let presigned_url := p.get "presigned_url"
    let uuid := p.get "uuid"
    -- Step 2: Upload direct to S3
    awaitUploadToS3 w presigned_url file file.type onProgress options.signal
    -- Step 3: Notify server that upload is complete
    Flow.tryCatch
      (do let _ ← completeUpload c w uuid
          pure ())
      (fun err => consoleWarn err)
    pure { uuid := uuid, filename := file.name, size := file.size }

/-- The method `downloadFileWithTokenUrl(downloadTokenUrl, filename = null)`. -/
def downloadFileWithTokenUrl (_c : ArtifactClient) (w : World) (downloadTokenUrl : JVal)
    (filename : JVal := .null) : Flow Unit := do
  -- Step 1: Request download (follows redirect)
  let response ← fetch w (getRequest downloadTokenUrl)
  if !response.ok then
    Flow.throw (mkError ("Download failed: " ++ response.statusText))
  else
    -- Step 2: Trigger browser download
    let blob ← Flow.ofExcept response.blob
    triggerDownload (filename.or (.str "downloaded-file")) blob

/-! ## Vocabulary for the statements -/

/-- A token-issuance request: a POST to one of the two token endpoints. -/
def isTokenIssuance (c : ArtifactClient) (req : Request) : Bool :=
  req.method == .POST &&
    (req.url == .str (c.baseUrl ++ "/genUploadPresignedURL") ||
     req.url == .str (c.baseUrl ++ "/genDownloadPresignedURL"))

/-- A flow that only ever adds requests to the trace. -/
def Flow.Grows {α : Type} (m : Flow α) : Prop :=
  ∀ s, ∃ rest, (m s).2.trace = s.trace ++ rest

/-- A flow that makes no request. -/
def Flow.Silent {α : Type} (m : Flow α) : Prop :=
  ∀ s, (m s).2.trace = s.trace

/-- The percentage of the claim's words: `loaded / total * 100` in exact rational
arithmetic, rounded half up.  It is what the sink values are compared with, not what
the code computes. -/
def specPercent (loaded total : Nat) : ℤ := ⌊((loaded : ℚ) / (total : ℚ)) * 100 + 1 / 2⌋

/-- The percentage a delivered event makes the sink receive, if any. -/
def XhrEvent.reported : XhrEvent → Option JsNumber
  | .progress true loaded total => some (percentOf loaded total)
  | _ => none

/-- The byte counts `(loaded, total)` of an event whose total is known. -/
def XhrEvent.known : XhrEvent → Option (Nat × Nat)
  | .progress true loaded total => some (loaded, total)
  | _ => none

/-! ## A concrete service, for evaluating the flows -/

def demoClient : ArtifactClient := { baseUrl := "http://localhost:8080" }

/-- A success response carrying a JSON object. -/
def okJson (o : JObj) : Response :=
  { ok := true, statusText := "OK", json := .ok (.obj o), blob := .ok [] }

/-- A non-success response with the given status text. -/
def failed (statusText : String) : Response :=
  { ok := false, statusText := statusText,
    json := .error ⟨"SyntaxError", "Unexpected end of JSON input"⟩, blob := .ok [] }

/-- The network error `fetch` throws when the service is unreachable. -/
def networkError : JsError := mkTypeError "Failed to fetch"

/-- A service at `http://localhost:8080` that issues token `T1`, assigns artifact `U1`,
holds two artifact records and serves a 3-byte payload; the answer to the completion
notification is a parameter. -/
def demoService (completion : FetchOutcome) (req : Request) : FetchOutcome :=
  match req.method, req.url with
  | .POST, .str "http://localhost:8080/genUploadPresignedURL" =>
    .response (okJson [("token", .str "T1"),
                       ("upload_url", .str "http://localhost:8080/upload/T1")])
  | .POST, .str "http://localhost:8080/upload/T1" =>
    .response (okJson [("presigned_url", .str "https://storage.example/U1"),
                       ("uuid", .str "U1")])
  | .POST, .str "http://localhost:8080/artifact-service/v1/artifacts/U1/complete" =>
    completion
  | .GET, .str "http://localhost:8080/artifact-service/v1/artifacts/" =>
    .response { ok := true, statusText := "OK", blob := .ok [],
                json := .ok (.arr [[("uuid", .str "U0"), ("filename", .str "old.bin")],
                                   [("uuid", .str "U1"), ("filename", .str "a.txt")],
                                   [("uuid", .str "U1"), ("filename", .str "copy.txt")]]) }
  | .GET, .str "http://localhost:8080/download/D1" =>
    .response { ok := true, statusText := "OK", blob := .ok [104, 105, 10],
                json := .error ⟨"SyntaxError", "Unexpected token"⟩ }
  | _, _ => .threw networkError

/-- The service acknowledging a completion notification. -/
def ack : FetchOutcome := .response (okJson [("status", .str "complete")])

/-- The world of `demoService` in which the storage upload sees the given events. -/
def demoWorld (completion : FetchOutcome) (events : List XhrEvent) : World :=
  { fetch := fun _ req => demoService completion req
    xhr := fun _ _ => events }

/-- A world whose token endpoints refuse every request (e.g. a CIDR mismatch). -/
def forbiddenWorld : World :=
  { fetch := fun _ _ => .response (failed "Forbidden")
    xhr := fun _ _ => [] }

/-- The 10-byte text file of the upload scenario. -/
def demoFile : File := { name := "a.txt", type := "text/plain", size := 10 }

/-- A file whose type the browser could not determine. -/
def untypedFile : File := { name := "data", type := "", size := 10 }

end ArtifactService

namespace ArtifactService
/-! ## Lemmas about the flow combinators -/

theorem Flow.bind_eq {α β : Type} (m : Flow α) (f : α → Flow β) : (m >>= f) = Flow.bind m f := rfl

theorem Flow.pure_eq {α : Type} (a : α) : (pure a : Flow α) = fun s => (.fulfilled a, s) := rfl

theorem fetch_response (w : World) (req : Request) (s : St) (r : Response)
    (h : w.fetch s.trace req = .response r) :
    fetch w req s = (.fulfilled r, { s with trace := s.trace ++ [req] }) := by
  simp [fetch, h]

theorem fetch_threw (w : World) (req : Request) (s : St) (e : JsError)
    (h : w.fetch s.trace req = .threw e) :
    fetch w req s = (.rejected e, { s with trace := s.trace ++ [req] }) := by
  simp [fetch, h]

theorem Flow.Silent.grows {α : Type} {m : Flow α} (h : m.Silent) : m.Grows :=
  fun s => ⟨[], by simp [h s]⟩

theorem Flow.silent_pure {α : Type} (a : α) : (pure a : Flow α).Silent := fun _ => rfl

theorem Flow.silent_throw {α : Type} (e : JsError) : (Flow.throw e : Flow α).Silent :=
  fun _ => rfl

theorem Flow.silent_ofExcept {α : Type} (x : Except JsError α) : (Flow.ofExcept x).Silent := by
  cases x
  · exact Flow.silent_throw _
  · exact Flow.silent_pure _

theorem silent_consoleWarn (e : JsError) : (consoleWarn e).Silent := fun _ => rfl

theorem silent_triggerDownload (d : JVal) (b : Blob) : (triggerDownload d b).Silent :=
  fun _ => rfl

theorem grows_fetch (w : World) (req : Request) : (fetch w req).Grows := by
  intro s
  refine ⟨[req], ?_⟩
  unfold fetch
  split <;> rfl

theorem grows_awaitUploadToS3 (w : World) (url : JVal) (file : File) (ct : String)
    (onProgress : Bool) (signal : Option AbortSignal) :
    (awaitUploadToS3 w url file ct onProgress signal).Grows :=
  fun _ => ⟨[putRequest url file ct], rfl⟩

theorem Flow.Grows.bind {α β : Type} {m : Flow α} {f : α → Flow β} (hm : m.Grows)
    (hf : ∀ a, (f a).Grows) : (m >>= f).Grows := by
  intro s
  obtain ⟨r1, h1⟩ := hm s
  rw [Flow.bind_eq]
  unfold Flow.bind
  rcases hms : m s with ⟨out, s1⟩
  rw [hms] at h1
  cases out with
  | pending => exact ⟨r1, h1⟩
  | rejected e => exact ⟨r1, h1⟩
  | fulfilled a =>
    obtain ⟨r2, h2⟩ := hf a s1
    refine ⟨r1 ++ r2, ?_⟩
    simp only at h1 ⊢
    rw [h2, h1, List.append_assoc]

theorem Flow.Grows.tryCatch {α : Type} {m : Flow α} {h : JsError → Flow α} (hm : m.Grows)
    (hh : ∀ e, (h e).Grows) : (Flow.tryCatch m h).Grows := by
  intro s
  obtain ⟨r1, h1⟩ := hm s
  unfold Flow.tryCatch
  rcases hms : m s with ⟨out, s1⟩
  rw [hms] at h1
  cases out with
  | pending => exact ⟨r1, h1⟩
  | fulfilled a => exact ⟨r1, h1⟩
  | rejected e =>
    obtain ⟨r2, h2⟩ := hh e s1
    refine ⟨r1 ++ r2, ?_⟩
    simp only at h1 ⊢
    rw [h2, h1, List.append_assoc]

/-- A flow that starts with a request and only grows afterwards has that request as
the first one it makes. -/
theorem fetch_bind_first {α : Type} (w : World) (req : Request) (f : Response → Flow α)
    (hf : ∀ r, (f r).Grows) (s : St) :
    ∃ rest, ((fetch w req >>= f) s).2.trace = s.trace ++ req :: rest := by
  rw [Flow.bind_eq]
  unfold Flow.bind fetch
  cases w.fetch s.trace req with
  | threw e => exact ⟨[], rfl⟩
  | response r =>
    obtain ⟨rest, h⟩ := hf r { s with trace := s.trace ++ [req] }
    refine ⟨rest, ?_⟩
    simp only at h ⊢
    rw [h, List.append_assoc]
    rfl

/-- A flow that starts with a request and is silent afterwards makes that request only. -/
theorem fetch_bind_only {α : Type} (w : World) (req : Request) (f : Response → Flow α)
    (hf : ∀ r, (f r).Silent) (s : St) :
    ((fetch w req >>= f) s).2.trace = s.trace ++ [req] := by
  rw [Flow.bind_eq]
  unfold Flow.bind fetch
  cases w.fetch s.trace req with
  | threw e => rfl
  | response r =>
    have h := hf r { s with trace := s.trace ++ [req] }
    simp only at h ⊢
    rw [h]

/-- Rethrowing in a `catch` block leaves the trace as the `try` block left it. -/
theorem tryCatch_rethrow_trace {α : Type} (m : Flow α) (g : JsError → JsError) (s : St) :
    (Flow.tryCatch m (fun e => Flow.throw (g e)) s).2.trace = (m s).2.trace := by
  unfold Flow.tryCatch
  rcases hms : m s with ⟨out, s1⟩
  cases out <;> rfl

/-! ## C3: a refused token request ends the self-service flows -/

/-- C3. In `uploadFile` and in `downloadFile`, when the token-issuance request gets a
non-success response, the call rejects and the only request it has made is that
token-issuance request. -/
theorem token_failure_stops_flow (c : ArtifactClient) (w : World) (s : St) (r : Response) :
    (∀ (file : File) (options : UploadOptions),
      w.fetch s.trace (uploadFile.tokenRequest c options) = .response r → r.ok = false →
      uploadFile c w file options s =
        (.rejected (mkError ("Upload failed: " ++
            ("Failed to generate upload token: " ++ r.statusText))),
         { s with trace := s.trace ++ [uploadFile.tokenRequest c options] })) ∧
    (∀ (artifactUuid : String) (filename : JVal) (options : DownloadOptions),
      w.fetch s.trace (downloadFile.tokenRequest c artifactUuid options) = .response r →
      r.ok = false →
      downloadFile c w artifactUuid filename options s =
        (.rejected (mkError ("Download failed: " ++
            ("Failed to generate download token: " ++ r.statusText))),
         { s with trace := s.trace ++ [downloadFile.tokenRequest c artifactUuid options] })) := by
  constructor
  · intro file options h hok
    simp [uploadFile, Flow.tryCatch, Flow.bind_eq, Flow.bind, fetch, h, hok, Flow.throw, mkError]
  · intro artifactUuid filename options h hok
    simp [downloadFile, Flow.tryCatch, Flow.bind_eq, Flow.bind, fetch, h, hok, Flow.throw, mkError]

/-- C3 at the refusing service: both self-service flows reject after one request. -/
theorem token_failure_stops_flow_witness :
    uploadFile demoClient forbiddenWorld demoFile {} St.init =
      (.rejected (mkError ("Upload failed: " ++ ("Failed to generate upload token: " ++ "Forbidden"))),
       { St.init with trace := St.init.trace ++ [uploadFile.tokenRequest demoClient {}] }) ∧
    downloadFile demoClient forbiddenWorld "U1" .null {} St.init =
      (.rejected (mkError ("Download failed: " ++
          ("Failed to generate download token: " ++ "Forbidden"))),
       { St.init with trace := St.init.trace ++ [downloadFile.tokenRequest demoClient "U1" {}] }) :=
  ⟨(token_failure_stops_flow demoClient forbiddenWorld St.init (failed "Forbidden")).1
      demoFile {} rfl rfl,
   (token_failure_stops_flow demoClient forbiddenWorld St.init (failed "Forbidden")).2
      "U1" .null {} rfl rfl⟩

/-! ## C1: the completion notification is best-effort -/

/-- C1. In `uploadFileWithTokenUrl`, when the URL exchange succeeds (a success response
whose body destructures to `p`) and the byte transfer resolves, the call resolves with
exactly `uuid`, `filename`, `size`, where `uuid` is the identifier of the URL exchange,
whatever the completion notification does (the world `w` is arbitrary there); the
notification is the third and last request. -/
theorem uploadFileWithTokenUrl_resolves (c : ArtifactClient) (w : World) (url : JVal)
    (file : File) (onProgress : Bool) (options : UploadOptions) (s : St)
    (presignedResponse : Response) (j : Json) (p : JObj)
    (hfetch : w.fetch s.trace (uploadFileWithTokenUrl.presignedRequest url file)
      = .response presignedResponse)
    (hok : presignedResponse.ok = true)
    (hjson : presignedResponse.json = .ok j)
    (hobj : j.destructure = .ok p)
    (hput : (_uploadToS3 (p.get "presigned_url") file file.type onProgress options.signal
        (w.xhr (s.trace ++ [uploadFileWithTokenUrl.presignedRequest url file])
          (putRequest (p.get "presigned_url") file file.type))).promise = .fulfilled ()) :
    (uploadFileWithTokenUrl c w url file onProgress options s).1 =
        .fulfilled { uuid := p.get "uuid", filename := file.name, size := file.size } ∧
    (uploadFileWithTokenUrl c w url file onProgress options s).2.trace =
        s.trace ++ [uploadFileWithTokenUrl.presignedRequest url file,
                    putRequest (p.get "presigned_url") file file.type,
                    completeUpload.request c (p.get "uuid")] := by
  cases hc : w.fetch (s.trace ++ [uploadFileWithTokenUrl.presignedRequest url file,
      putRequest (p.get "presigned_url") file file.type])
      (completeUpload.request c (p.get "uuid")) with
  | threw e =>
    simp [uploadFileWithTokenUrl, Flow.bind_eq, Flow.bind, fetch, hfetch, hok, hjson, hobj,
      Flow.ofExcept, Flow.pure_eq, awaitUploadToS3, hput, Flow.tryCatch, completeUpload, hc,
      consoleWarn, bind, Except.bind]
  | response r =>
    cases hr : r.ok <;> cases hj : r.json <;>
      simp [uploadFileWithTokenUrl, Flow.bind_eq, Flow.bind, fetch, hfetch, hok, hjson, hobj,
        Flow.ofExcept, Flow.pure_eq, awaitUploadToS3, hput, Flow.tryCatch, completeUpload, hc,
        consoleWarn, bind, Except.bind, hr, hj, Flow.throw]

/-- C1 at the demo service when the completion notification fails with a network
error: the delegated upload still resolves with the identifier `U1`. -/
theorem uploadFileWithTokenUrl_resolves_witness :
    (uploadFileWithTokenUrl demoClient
        (demoWorld (.threw networkError) [.progress true 10 10, .load 200])
        (.str "http://localhost:8080/upload/T1") demoFile true {} St.init).1 =
        .fulfilled { uuid := .str "U1", filename := "a.txt", size := 10 } ∧
    (uploadFileWithTokenUrl demoClient
        (demoWorld (.threw networkError) [.progress true 10 10, .load 200])
        (.str "http://localhost:8080/upload/T1") demoFile true {} St.init).2.trace =
        [uploadFileWithTokenUrl.presignedRequest (.str "http://localhost:8080/upload/T1") demoFile,
         putRequest (.str "https://storage.example/U1") demoFile "text/plain",
         completeUpload.request demoClient (.str "U1")] :=
  uploadFileWithTokenUrl_resolves demoClient
    (demoWorld (.threw networkError) [.progress true 10 10, .load 200])
    (.str "http://localhost:8080/upload/T1") demoFile true {} St.init
    (okJson [("presigned_url", .str "https://storage.example/U1"), ("uuid", .str "U1")])
    (.obj [("presigned_url", .str "https://storage.example/U1"), ("uuid", .str "U1")])
    [("presigned_url", .str "https://storage.example/U1"), ("uuid", .str "U1")]
    rfl rfl rfl rfl (by decide)

/-! ## C2: metadata lookup is a linear scan -/

/-- C2. On a successfully fetched collection `records`, `getArtifactMetadata id` rejects
with `Artifact not found` exactly when no record has `uuid` equal to `id`; otherwise it
resolves with the first record, in collection order, whose `uuid` equals `id`; every
value it resolves with is a record of the collection with that `uuid`. -/
theorem getArtifactMetadata_scan (c : ArtifactClient) (w : World) (s : St) (id : String)
    (response : Response) (records : List JObj)
    (hfetch : w.fetch s.trace (getRequest (.str (c.baseUrl ++ "/artifact-service/v1/artifacts/")))
      = .response response)
    (hok : response.ok = true)
    (hjson : response.json = .ok (.arr records)) :
    ((getArtifactMetadata c w id s).1 = .rejected (mkError ("Artifact not found: " ++ id)) ↔
        ∀ a ∈ records, a.get "uuid" ≠ .str id) ∧
    ((∃ a ∈ records, a.get "uuid" = .str id) →
        ∃ pre a post, records = pre ++ a :: post ∧ (∀ b ∈ pre, b.get "uuid" ≠ .str id) ∧
          a.get "uuid" = .str id ∧ (getArtifactMetadata c w id s).1 = .fulfilled a) ∧
    (∀ a, (getArtifactMetadata c w id s).1 = .fulfilled a →
        a ∈ records ∧ a.get "uuid" = .str id) := by
  have key : (getArtifactMetadata c w id s).1 =
      match records.find? (fun a => a.get "uuid" == .str id) with
      | none => .rejected (mkError ("Artifact not found: " ++ id))
      | some a => .fulfilled a := by
    cases hf : records.find? (fun a => a.get "uuid" == .str id) <;>
      simp [getArtifactMetadata, Flow.bind_eq, Flow.bind, fetch, hfetch, hok, hjson,
        Flow.ofExcept, Flow.pure_eq, Json.find, hf, Flow.throw]
  rw [key]
  cases hf : records.find? (fun a => a.get "uuid" == .str id) with
  | none =>
    have hnone : ∀ a ∈ records, a.get "uuid" ≠ .str id := by
      intro a ha
      have := (List.find?_eq_none.mp hf) a ha
      simpa using this
    refine ⟨⟨fun _ => hnone, fun _ => rfl⟩, ?_, ?_⟩
    · rintro ⟨a, ha, hu⟩
      exact absurd hu (hnone a ha)
    · intro a h
      simp at h
  | some a0 =>
    obtain ⟨hp, pre, post, hrec, hpre⟩ := List.find?_eq_some.mp hf
    have hu : a0.get "uuid" = .str id := by simpa using hp
    have hmem : a0 ∈ records := by rw [hrec]; simp
    refine ⟨⟨fun h => by simp at h, fun h => absurd hu (h a0 hmem)⟩, ?_, ?_⟩
    · intro _
      refine ⟨pre, a0, post, hrec, ?_, hu, rfl⟩
      intro b hb
      have := hpre b hb
      simpa using this
    · intro a h
      have : a0 = a := by simpa using h
      subst this
      exact ⟨hmem, hu⟩

/-- C2 at the demo service: `U1` resolves to the first of its two records, and the
absent `U9` is reported as not found. -/
theorem getArtifactMetadata_scan_witness :
    (∃ pre a post,
        [[("uuid", JVal.str "U0"), ("filename", JVal.str "old.bin")],
         [("uuid", .str "U1"), ("filename", .str "a.txt")],
         [("uuid", .str "U1"), ("filename", .str "copy.txt")]] = pre ++ a :: post ∧
        (∀ b ∈ pre, JObj.get b "uuid" ≠ .str "U1") ∧ JObj.get a "uuid" = .str "U1" ∧
        (getArtifactMetadata demoClient (demoWorld ack []) "U1" St.init).1 = .fulfilled a) ∧
    ((getArtifactMetadata demoClient (demoWorld ack []) "U9" St.init).1 =
        .rejected (mkError ("Artifact not found: " ++ "U9"))) :=
  ⟨(getArtifactMetadata_scan demoClient (demoWorld ack []) St.init "U1" _ _ rfl rfl rfl).2.1
      ⟨[("uuid", .str "U1"), ("filename", .str "a.txt")], by decide, by decide⟩,
   (getArtifactMetadata_scan demoClient (demoWorld ack []) St.init "U9" _ _ rfl rfl rfl).1.mpr
      (by decide)⟩

/-! ## C8: the delegated download makes one GET -/

/-- C8. `downloadFileWithTokenUrl` makes exactly one request, a GET to the supplied URL,
which is not a token-issuance request (a POST to a token endpoint).  On a success
response with payload `payload` it resolves and hands `payload` to the browser download;
on a non-success response it rejects with `Download failed: <statusText>`. -/
theorem downloadFileWithTokenUrl_single_get (c : ArtifactClient) (w : World) (url : JVal)
    (filename : JVal) (s : St) :
    (downloadFileWithTokenUrl c w url filename s).2.trace = s.trace ++ [getRequest url] ∧
    isTokenIssuance c (getRequest url) = false ∧
    (∀ (r : Response) (payload : Blob),
      w.fetch s.trace (getRequest url) = .response r → r.ok = true → r.blob = .ok payload →
      (downloadFileWithTokenUrl c w url filename s).1 = .fulfilled () ∧
      (downloadFileWithTokenUrl c w url filename s).2.saved =
        s.saved ++ [(filename.or (.str "downloaded-file"), payload)]) ∧
    (∀ (r : Response),
      w.fetch s.trace (getRequest url) = .response r → r.ok = false →
      (downloadFileWithTokenUrl c w url filename s).1 =
        .rejected (mkError ("Download failed: " ++ r.statusText)) ∧
      (downloadFileWithTokenUrl c w url filename s).2.saved = s.saved) := by
  refine ⟨?_, ?_, ?_, ?_⟩
  · cases hf : w.fetch s.trace (getRequest url) with
    | threw e => simp [downloadFileWithTokenUrl, Flow.bind_eq, Flow.bind, fetch, hf]
    | response r =>
      cases hr : r.ok <;> cases hb : r.blob <;>
        simp [downloadFileWithTokenUrl, Flow.bind_eq, Flow.bind, fetch, hf, hr, hb,
          Flow.throw, Flow.ofExcept, Flow.pure_eq, triggerDownload]
  · simp [isTokenIssuance, getRequest]
  · intro r payload hf hr hb
    simp [downloadFileWithTokenUrl, Flow.bind_eq, Flow.bind, fetch, hf, hr, hb,
      Flow.ofExcept, Flow.pure_eq, triggerDownload]
  · intro r hf hr
    simp [downloadFileWithTokenUrl, Flow.bind_eq, Flow.bind, fetch, hf, hr, Flow.throw]

/-- C8 at the demo service: the pre-issued URL `download/D1` delivers its 3-byte payload
under the default file name, and a URL the service refuses rejects. -/
theorem downloadFileWithTokenUrl_single_get_witness :
    ((downloadFileWithTokenUrl demoClient (demoWorld ack [])
        (.str "http://localhost:8080/download/D1") .null St.init).1 = .fulfilled () ∧
     (downloadFileWithTokenUrl demoClient (demoWorld ack [])
        (.str "http://localhost:8080/download/D1") .null St.init).2.saved =
        St.init.saved ++ [(JVal.or .null (.str "downloaded-file"), [104, 105, 10])]) ∧
    ((downloadFileWithTokenUrl demoClient forbiddenWorld
        (.str "http://localhost:8080/download/D1") .null St.init).1 =
        .rejected (mkError ("Download failed: " ++ "Forbidden")) ∧
     (downloadFileWithTokenUrl demoClient forbiddenWorld
        (.str "http://localhost:8080/download/D1") .null St.init).2.saved = St.init.saved) :=
  ⟨(downloadFileWithTokenUrl_single_get demoClient (demoWorld ack [])
      (.str "http://localhost:8080/download/D1") .null St.init).2.2.1 _ _ rfl rfl rfl,
   (downloadFileWithTokenUrl_single_get demoClient forbiddenWorld
      (.str "http://localhost:8080/download/D1") .null St.init).2.2.2 (failed "Forbidden") rfl rfl⟩

/-! ## C9: the token-request bodies -/

/-- C9. The first request of `uploadFile` and the only request of `createUploadToken` is
the same POST to `/genUploadPresignedURL`, whose body holds `max_uploads`, `valid_from`,
`valid_to`, `allowed_cidr`: the supplied option, or `1` resp. `null` when absent.  The
first request of `downloadFile` and the only request of `createDownloadToken` is the same
POST to `/genDownloadPresignedURL`, whose body holds `artifact_uuid` and then the same
four fields with `max_downloads`. -/
theorem token_request_bodies (c : ArtifactClient) (w : World) (s : St) :
    (∀ (file : File) (options : UploadOptions),
      (∃ rest, (uploadFile c w file options s).2.trace =
          s.trace ++ uploadFile.tokenRequest c options :: rest) ∧
      (createUploadToken c w options s).2.trace =
          s.trace ++ [uploadFile.tokenRequest c options] ∧
      uploadFile.tokenRequest c options =
        { method := .POST
          url := .str (c.baseUrl ++ "/genUploadPresignedURL")
          headers := [("Content-Type", "application/json")]
          body := .json
            [("max_uploads",
                if options.maxUploads = .undefined then .num 1 else options.maxUploads),
             ("valid_from",
                if options.validFrom = .undefined then .null else options.validFrom),
             ("valid_to",
                if options.validTo = .undefined then .null else options.validTo),
             ("allowed_cidr",
                if options.allowedCIDR = .undefined then .null else options.allowedCIDR)] }) ∧
    (∀ (artifactUuid : String) (filename : JVal) (options : DownloadOptions),
      (∃ rest, (downloadFile c w artifactUuid filename options s).2.trace =
          s.trace ++ downloadFile.tokenRequest c artifactUuid options :: rest) ∧
      (createDownloadToken c w artifactUuid options s).2.trace =
          s.trace ++ [downloadFile.tokenRequest c artifactUuid options] ∧
      downloadFile.tokenRequest c artifactUuid options =
        { method := .POST
          url := .str (c.baseUrl ++ "/genDownloadPresignedURL")
          headers := [("Content-Type", "application/json")]
          body := .json
            [("artifact_uuid", .str artifactUuid),
             ("max_downloads",
                if options.maxDownloads = .undefined then .num 1 else options.maxDownloads),
             ("valid_from",
                if options.validFrom = .undefined then .null else options.validFrom),
             ("valid_to",
                if options.validTo = .undefined then .null else options.validTo),
             ("allowed_cidr",
                if options.allowedCIDR = .undefined then .null else options.allowedCIDR)] }) := by
  constructor
  · intro file options
    refine ⟨?_, ?_, ?_⟩
    · unfold uploadFile
      simp only [tryCatch_rethrow_trace]
      apply fetch_bind_first
      intro r
      split
      · exact (Flow.silent_throw _).grows
      · refine Flow.Grows.bind (Flow.silent_ofExcept _).grows (fun o => ?_)
        refine Flow.Grows.bind (grows_fetch _ _) (fun r2 => ?_)
        split
        · exact (Flow.silent_throw _).grows
        · refine Flow.Grows.bind (Flow.silent_ofExcept _).grows (fun p => ?_)
          exact Flow.Grows.bind (grows_awaitUploadToS3 _ _ _ _ _ _)
            (fun _ => (Flow.silent_pure _).grows)
    · apply fetch_bind_only w (uploadFile.tokenRequest c options)
      intro r
      split
      · exact Flow.silent_throw _
      · exact Flow.silent_ofExcept _
    · simp [uploadFile.tokenRequest, JVal.dflt, jsonHeaders]
  · intro artifactUuid filename options
    refine ⟨?_, ?_, ?_⟩
    · unfold downloadFile
      simp only [tryCatch_rethrow_trace]
      apply fetch_bind_first
      intro r
      split
      · exact (Flow.silent_throw _).grows
      · refine Flow.Grows.bind (Flow.silent_ofExcept _).grows (fun o => ?_)
        refine Flow.Grows.bind (grows_fetch _ _) (fun r2 => ?_)
        split
        · exact (Flow.silent_throw _).grows
        · exact Flow.Grows.bind (Flow.silent_ofExcept _).grows
            (fun _ => (silent_triggerDownload _ _).grows)
    · apply fetch_bind_only w (downloadFile.tokenRequest c artifactUuid options)
      intro r
      split
      · exact Flow.silent_throw _
      · exact Flow.silent_ofExcept _
    · simp [downloadFile.tokenRequest, JVal.dflt, jsonHeaders]

/-! ## Lemmas about binary64 rounding -/

theorem roundHalfEven_cases (y : ℚ) : roundHalfEven y = ⌊y⌋ ∨ roundHalfEven y = ⌊y⌋ + 1 := by
  unfold roundHalfEven
  split_ifs <;> simp

theorem floor_le_roundHalfEven (y : ℚ) : ⌊y⌋ ≤ roundHalfEven y := by
  rcases roundHalfEven_cases y with h | h <;> omega

theorem roundHalfEven_le_floor_succ (y : ℚ) : roundHalfEven y ≤ ⌊y⌋ + 1 := by
  rcases roundHalfEven_cases y with h | h <;> omega

theorem roundHalfEven_intCast (n : ℤ) : roundHalfEven (n : ℚ) = n := by
  unfold roundHalfEven
  simp

theorem le_roundHalfEven {n : ℤ} {y : ℚ} (h : (n : ℚ) ≤ y) : n ≤ roundHalfEven y :=
  (Int.le_floor.mpr h).trans (floor_le_roundHalfEven y)

theorem roundHalfEven_le {n : ℤ} {y : ℚ} (h : y ≤ (n : ℚ)) : roundHalfEven y ≤ n := by
  rcases h.lt_or_eq with hlt | heq
  · have : ⌊y⌋ < n := Int.floor_lt.mpr hlt
    have := roundHalfEven_le_floor_succ y
    omega
  · rw [heq, roundHalfEven_intCast]

theorem roundHalfEven_mono {y z : ℚ} (h : y ≤ z) : roundHalfEven y ≤ roundHalfEven z := by
  have hfl : ⌊y⌋ ≤ ⌊z⌋ := Int.floor_mono h
  rcases hfl.lt_or_eq with hlt | heq
  · have := roundHalfEven_le_floor_succ y
    have := floor_le_roundHalfEven z
    omega
  · unfold roundHalfEven
    rw [← heq]
    have hyz : y - ⌊y⌋ ≤ z - ⌊y⌋ := by linarith
    split_ifs <;> first | omega | (exfalso; linarith)

theorem roundHalfEven_eq_of_near {y : ℚ} {m : ℤ} (h : |y - m| < 1 / 2) : roundHalfEven y = m := by
  rw [abs_lt] at h
  obtain ⟨h1, h2⟩ := h
  by_cases hm : (m : ℚ) ≤ y
  · have hf : ⌊y⌋ = m := by
      rw [Int.floor_eq_iff]
      constructor <;> linarith
    unfold roundHalfEven
    rw [hf, if_pos (by linarith)]
  · push_neg at hm
    have hf : ⌊y⌋ = m - 1 := by
      rw [Int.floor_eq_iff]
      push_cast
      constructor <;> linarith
    unfold roundHalfEven
    rw [hf]
    push_cast
    rw [if_neg (by linarith), if_pos (by linarith)]
    ring

theorem abs_roundHalfEven_sub_le (y : ℚ) : |(roundHalfEven y : ℚ) - y| ≤ 1 / 2 := by
  have h1 := Int.floor_le y
  have h2 := Int.lt_floor_add_one y
  unfold roundHalfEven
  rw [abs_le]
  split_ifs with a b c <;> push_cast <;> constructor <;> linarith

theorem two_zpow_pos (e : ℤ) : (0 : ℚ) < 2 ^ e := zpow_pos (by norm_num) e

theorem ulpExp_mono {x y : ℚ} (hx : 0 < x) (h : x ≤ y) : ulpExp x ≤ ulpExp y := by
  unfold ulpExp
  have := Int.log_mono_right (b := 2) hx h
  omega

theorem ulpExp_eq_of {x : ℚ} {k : ℤ} (h1 : 2 ^ k ≤ x) (h2 : x < 2 ^ (k + 1)) :
    ulpExp x = max (k - 52) (-1074) := by
  have hx : 0 < x := lt_of_lt_of_le (two_zpow_pos k) h1
  have hl : Int.log 2 x = k := by
    have a : k ≤ Int.log 2 x := (Int.zpow_le_iff_le_log (by norm_num) hx).mp (by exact_mod_cast h1)
    have b : Int.log 2 x < k + 1 :=
      (Int.lt_zpow_iff_log_lt (by norm_num) hx).mp (by exact_mod_cast h2)
    omega
  unfold ulpExp
  rw [hl]

theorem scaled_lt (x : ℚ) : x / 2 ^ ulpExp x < 2 ^ (53 : ℤ) := by
  rw [div_lt_iff₀ (two_zpow_pos _), ← zpow_add₀ (by norm_num : (2 : ℚ) ≠ 0)]
  have h1 : x < (2 : ℚ) ^ (Int.log 2 x + 1) := by
    exact_mod_cast Int.lt_zpow_succ_log_self (b := 2) (by norm_num) x
  refine lt_of_lt_of_le h1 (zpow_le_zpow_right₀ (by norm_num) ?_)
  unfold ulpExp
  omega

theorem le_scaled {x : ℚ} (hx : 0 < x) (hn : -1074 < ulpExp x) :
    2 ^ (52 : ℤ) ≤ x / 2 ^ ulpExp x := by
  rw [le_div_iff₀ (two_zpow_pos _), ← zpow_add₀ (by norm_num : (2 : ℚ) ≠ 0)]
  have h1 : (2 : ℚ) ^ (Int.log 2 x) ≤ x := by
    exact_mod_cast Int.zpow_log_le_self (b := 2) (by norm_num) hx
  refine le_trans (zpow_le_zpow_right₀ (by norm_num) ?_) h1
  unfold ulpExp at hn ⊢
  omega

theorem nearestGrid_nonneg {x : ℚ} (hx : 0 ≤ x) : 0 ≤ nearestGrid x := by
  unfold nearestGrid
  apply mul_nonneg _ (two_zpow_pos _).le
  have : (0 : ℤ) ≤ roundHalfEven (x / 2 ^ ulpExp x) :=
    le_roundHalfEven (by simpa using div_nonneg hx (two_zpow_pos _).le)
  exact_mod_cast this

theorem nearestGrid_mono {x y : ℚ} (hx : 0 < x) (h : x ≤ y) : nearestGrid x ≤ nearestGrid y := by
  have hy : 0 < y := lt_of_lt_of_le hx h
  have he := ulpExp_mono hx h
  unfold nearestGrid
  rcases he.lt_or_eq with hlt | heq
  · have h1 : roundHalfEven (x / 2 ^ ulpExp x) ≤ 2 ^ 53 :=
      roundHalfEven_le (by have := scaled_lt x; push_cast; exact_mod_cast this.le)
    have hny : -1074 < ulpExp y := by
      have : -1074 ≤ ulpExp x := by unfold ulpExp; omega
      omega
    have h2 : 2 ^ 52 ≤ roundHalfEven (y / 2 ^ ulpExp y) :=
      le_roundHalfEven (by have := le_scaled hy hny; push_cast; exact_mod_cast this)
    have h1q : (roundHalfEven (x / 2 ^ ulpExp x) : ℚ) ≤ 2 ^ (53 : ℤ) := by exact_mod_cast h1
    have h2q : (2 : ℚ) ^ (52 : ℤ) ≤ (roundHalfEven (y / 2 ^ ulpExp y) : ℚ) := by exact_mod_cast h2
    calc (roundHalfEven (x / 2 ^ ulpExp x) : ℚ) * 2 ^ ulpExp x
        ≤ 2 ^ (53 : ℤ) * 2 ^ ulpExp x := mul_le_mul_of_nonneg_right h1q (two_zpow_pos _).le
      _ = 2 ^ (53 + ulpExp x) := (zpow_add₀ (by norm_num) _ _).symm
      _ ≤ 2 ^ (52 + ulpExp y) := zpow_le_zpow_right₀ (by norm_num) (by omega)
      _ = 2 ^ (52 : ℤ) * 2 ^ ulpExp y := zpow_add₀ (by norm_num) _ _
      _ ≤ (roundHalfEven (y / 2 ^ ulpExp y) : ℚ) * 2 ^ ulpExp y :=
          mul_le_mul_of_nonneg_right h2q (two_zpow_pos _).le
  · rw [← heq]
    apply mul_le_mul_of_nonneg_right _ (two_zpow_pos _).le
    have : roundHalfEven (x / 2 ^ ulpExp x) ≤ roundHalfEven (y / 2 ^ ulpExp x) :=
      roundHalfEven_mono (div_le_div_of_nonneg_right h (two_zpow_pos _).le)
    exact_mod_cast this

theorem roundToDouble_mono {x y : ℚ} {v : ℚ} (hx : 0 ≤ x) (h : x ≤ y)
    (hy : roundToDouble y = .fin v) :
    ∃ u, roundToDouble x = .fin u ∧ 0 ≤ u ∧ u ≤ v := by
  have hv : 0 ≤ v ∧ (0 < y → v = nearestGrid y ∧ nearestGrid y < 2 ^ (1024 : ℤ)) := by
    unfold roundToDouble at hy
    split_ifs at hy with a b
    · injection hy with hy
      exact ⟨hy ▸ le_refl _, fun hpos => absurd a (not_le.mpr hpos)⟩
    · injection hy with hy
      exact ⟨hy ▸ nearestGrid_nonneg (not_le.mp a).le, fun _ => ⟨hy.symm, b⟩⟩
  rcases hx.lt_or_eq with hpos | hzero
  · obtain ⟨hveq, hvlt⟩ := hv.2 (lt_of_lt_of_le hpos h)
    have hm := nearestGrid_mono hpos h
    refine ⟨nearestGrid x, ?_, nearestGrid_nonneg hx, hveq ▸ hm⟩
    unfold roundToDouble
    rw [if_neg (not_le.mpr hpos), if_pos (lt_of_le_of_lt hm hvlt)]
  · refine ⟨0, ?_, le_refl _, hv.1⟩
    unfold roundToDouble
    rw [if_pos hzero.symm.le]

theorem roundToDouble_eq {x : ℚ} (k m : ℤ) (h1 : 2 ^ k ≤ x) (h2 : x < 2 ^ (k + 1))
    (he : -1022 ≤ k) (hm : |x / 2 ^ (k - 52) - m| < 1 / 2)
    (hv : (m : ℚ) * 2 ^ (k - 52) < 2 ^ (1024 : ℤ)) :
    roundToDouble x = .fin ((m : ℚ) * 2 ^ (k - 52)) := by
  have hx : 0 < x := lt_of_lt_of_le (two_zpow_pos k) h1
  have hu : ulpExp x = k - 52 := by rw [ulpExp_eq_of h1 h2]; omega
  have hg : nearestGrid x = (m : ℚ) * 2 ^ (k - 52) := by
    unfold nearestGrid
    rw [hu, roundHalfEven_eq_of_near hm]
  unfold roundToDouble
  rw [if_neg (not_le.mpr hx), hg, if_pos hv]

theorem roundToDouble_two_zpow (k : ℤ) (h1 : -1022 ≤ k) (h2 : k < 1024) :
    roundToDouble (2 ^ k) = .fin (2 ^ k) := by
  have hsplit : (2 : ℚ) ^ k = ((2 ^ 52 : ℤ) : ℚ) * 2 ^ (k - 52) := by
    have h52 : ((2 ^ 52 : ℤ) : ℚ) = (2 : ℚ) ^ (52 : ℤ) := by norm_num
    rw [h52, ← zpow_add₀ (by norm_num : (2 : ℚ) ≠ 0)]
    congr 1
    ring
  have := roundToDouble_eq (x := 2 ^ k) k (2 ^ 52) le_rfl
    (zpow_lt_zpow_right₀ (by norm_num) (by omega))
    h1 (by rw [hsplit, mul_div_assoc, div_self (two_zpow_pos _).ne']; norm_num)
    (by rw [← hsplit]; exact zpow_lt_zpow_right₀ (by norm_num) h2)
  rw [this, ← hsplit]

theorem roundToDouble_le_two_zpow {x : ℚ} (k : ℤ) (h1 : -1022 ≤ k) (h2 : k < 1024)
    (hx : 0 ≤ x) (h : x ≤ 2 ^ k) : ∃ u, roundToDouble x = .fin u ∧ 0 ≤ u ∧ u ≤ 2 ^ k :=
  roundToDouble_mono hx h (roundToDouble_two_zpow k h1 h2)

theorem roundToDouble_one : roundToDouble 1 = .fin 1 := by
  simpa using roundToDouble_two_zpow 0 (by norm_num) (by norm_num)

theorem roundToDouble_hundred : roundToDouble 100 = .fin 100 := by
  have := roundToDouble_eq (x := 100) 6 (100 * 2 ^ 46) (by norm_num) (by norm_num)
    (by norm_num) (by rw [abs_lt]; constructor <;> norm_num) (by norm_num)
  rw [this]
  norm_num

/-- The stages of `percentOf` on 64-bit byte counts with a positive total. -/
theorem percentOf_stages (l t : Nat) (ht : 0 < t) (hl64 : l < 2 ^ 64) (ht64 : t < 2 ^ 64) :
    ∃ a b c d : ℚ, JsNumber.ofNat l = .fin a ∧ JsNumber.ofNat t = .fin b ∧
      roundToDouble (a / b) = .fin c ∧ roundToDouble (c * 100) = .fin d ∧
      percentOf l t = .fin ((⌊d + 1 / 2⌋ : ℤ) : ℚ) ∧
      0 ≤ a ∧ 1 ≤ b ∧ 0 ≤ c ∧ 0 ≤ d := by
  have hlq : ((l : ℕ) : ℚ) ≤ 2 ^ (64 : ℤ) := by exact_mod_cast hl64.le
  have htq : ((t : ℕ) : ℚ) ≤ 2 ^ (64 : ℤ) := by exact_mod_cast ht64.le
  obtain ⟨a, ha, ha0, ha64⟩ :=
    roundToDouble_le_two_zpow 64 (by norm_num) (by norm_num) (Nat.cast_nonneg l) hlq
  obtain ⟨b, hb, _, _⟩ :=
    roundToDouble_le_two_zpow 64 (by norm_num) (by norm_num) (Nat.cast_nonneg t) htq
  have hb1 : 1 ≤ b := by
    have h1t : (1 : ℚ) ≤ (t : ℚ) := by exact_mod_cast ht
    obtain ⟨u, hu, _, hub⟩ := roundToDouble_mono (by norm_num) h1t hb
    rw [roundToDouble_one] at hu
    injection hu with hu
    rw [hu]
    exact hub
  have hab : a / b ≤ 2 ^ (64 : ℤ) :=
    (div_le_self ha0 hb1).trans ha64
  obtain ⟨c, hc, hc0, hc64⟩ :=
    roundToDouble_le_two_zpow 64 (by norm_num) (by norm_num)
      (div_nonneg ha0 (by linarith)) hab
  have hcd : c * 100 ≤ 2 ^ (71 : ℤ) := by
    have : (2 : ℚ) ^ (71 : ℤ) = 2 ^ (64 : ℤ) * 128 := by norm_num
    rw [this]
    nlinarith
  obtain ⟨d, hd, hd0, _⟩ :=
    roundToDouble_le_two_zpow 71 (by norm_num) (by norm_num) (by positivity) hcd
  refine ⟨a, b, c, d, ha, hb, hc, hd, ?_, ha0, hb1, hc0, hd0⟩
  unfold percentOf JsNumber.ofNat
  rw [ha, hb]
  simp only [JsNumber.div]
  rw [if_neg (by linarith), hc]
  simp only [JsNumber.mul]
  rw [hd]
  rfl

theorem percentOf_bounds (l t : Nat) (ht : 0 < t) (hlt : l ≤ t) (ht64 : t < 2 ^ 64) :
    ∃ n : ℤ, percentOf l t = .fin n ∧ 0 ≤ n ∧ n ≤ 100 := by
  obtain ⟨a, b, c, d, ha, hb, hc, hd, hp, ha0, hb1, hc0, hd0⟩ :=
    percentOf_stages l t ht (by omega) ht64
  have hab : a ≤ b := by
    obtain ⟨u, hu, _, hub⟩ :=
      roundToDouble_mono (Nat.cast_nonneg l) (by exact_mod_cast hlt : (l : ℚ) ≤ t) hb
    unfold JsNumber.ofNat at ha
    rw [ha] at hu
    injection hu with hu
    rw [hu]
    exact hub
  have hc1 : c ≤ 1 := by
    obtain ⟨u, hu, _, hu1⟩ := roundToDouble_mono (div_nonneg ha0 (by linarith))
      ((div_le_one (by linarith)).mpr hab) roundToDouble_one
    rw [hc] at hu
    injection hu with hu
    rw [hu]
    exact hu1
  have hd100 : d ≤ 100 := by
    obtain ⟨u, hu, _, hu1⟩ := roundToDouble_mono (by positivity)
      (by linarith : c * 100 ≤ 100) roundToDouble_hundred
    rw [hd] at hu
    injection hu with hu
    rw [hu]
    exact hu1
  refine ⟨⌊d + 1 / 2⌋, hp, Int.floor_nonneg.mpr (by linarith), ?_⟩
  have : ⌊d + 1 / 2⌋ < 100 + 1 := Int.floor_lt.mpr (by push_cast; linarith)
  omega

theorem percentOf_mono (l₁ l₂ t : Nat) (ht : 0 < t) (h : l₁ ≤ l₂) (hl64 : l₂ < 2 ^ 64)
    (ht64 : t < 2 ^ 64) : (percentOf l₁ t).le (percentOf l₂ t) = true := by
  obtain ⟨a₁, b₁, c₁, d₁, ha₁, hb₁, hc₁, hd₁, hp₁, ha0₁, hb1₁, hc0₁, hd0₁⟩ :=
    percentOf_stages l₁ t ht (by omega) ht64
  obtain ⟨a₂, b₂, c₂, d₂, ha₂, hb₂, hc₂, hd₂, hp₂, ha0₂, hb1₂, hc0₂, hd0₂⟩ :=
    percentOf_stages l₂ t ht hl64 ht64
  have hbb : b₁ = b₂ := by
    rw [hb₁] at hb₂
    injection hb₂
  subst hbb
  have haa : a₁ ≤ a₂ := by
    obtain ⟨u, hu, _, hub⟩ :=
      roundToDouble_mono (Nat.cast_nonneg l₁) (by exact_mod_cast h : (l₁ : ℚ) ≤ l₂) ha₂
    unfold JsNumber.ofNat at ha₁
    rw [ha₁] at hu
    injection hu with hu
    rw [hu]
    exact hub
  have hcc : c₁ ≤ c₂ := by
    obtain ⟨u, hu, _, hub⟩ := roundToDouble_mono (div_nonneg ha0₁ (by linarith))
      (div_le_div_of_nonneg_right haa (by linarith : (0 : ℚ) ≤ b₁)) hc₂
    rw [hc₁] at hu
    injection hu with hu
    rw [hu]
    exact hub
  have hdd : d₁ ≤ d₂ := by
    obtain ⟨u, hu, _, hub⟩ := roundToDouble_mono (by positivity)
      (by linarith : c₁ * 100 ≤ c₂ * 100) hd₂
    rw [hd₁] at hu
    injection hu with hu
    rw [hu]
    exact hub
  rw [hp₁, hp₂]
  simp only [JsNumber.le, decide_eq_true_eq]
  exact_mod_cast Int.floor_mono (by linarith : d₁ + 1 / 2 ≤ d₂ + 1 / 2)

theorem percentOf_23_40 : percentOf 23 40 = .fin 57 := by
  have h23 : JsNumber.ofNat 23 = .fin 23 := by
    have := roundToDouble_eq (x := 23) 4 (23 * 2 ^ 48) (by norm_num) (by norm_num)
      (by norm_num) (by rw [abs_lt]; constructor <;> norm_num) (by norm_num)
    unfold JsNumber.ofNat
    push_cast
    rw [this]
    norm_num
  have h40 : JsNumber.ofNat 40 = .fin 40 := by
    have := roundToDouble_eq (x := 40) 5 (40 * 2 ^ 47) (by norm_num) (by norm_num)
      (by norm_num) (by rw [abs_lt]; constructor <;> norm_num) (by norm_num)
    unfold JsNumber.ofNat
    push_cast
    rw [this]
    norm_num
  have hq : roundToDouble (23 / 40) = .fin (5179139571476070 / 2 ^ 53) := by
    have := roundToDouble_eq (x := 23 / 40) (-1) 5179139571476070 (by norm_num) (by norm_num)
      (by norm_num) (by rw [abs_lt]; constructor <;> norm_num) (by norm_num)
    rw [this]
    norm_num
  have hm : roundToDouble (5179139571476070 / 2 ^ 53 * 100) = .fin (8092405580431359 / 2 ^ 47) := by
    have := roundToDouble_eq (x := 5179139571476070 / 2 ^ 53 * 100) 5 8092405580431359
      (by norm_num) (by norm_num)
      (by norm_num) (by rw [abs_lt]; constructor <;> norm_num) (by norm_num)
    rw [this]
    norm_num
  unfold percentOf
  rw [h23, h40]
  simp only [JsNumber.div]
  rw [if_neg (by norm_num), hq]
  simp only [JsNumber.mul]
  rw [hm]
  simp only [mathRound]
  congr 1
  have : ⌊(8092405580431359 / 2 ^ 47 + 1 / 2 : ℚ)⌋ = 57 := by
    rw [Int.floor_eq_iff]
    constructor <;> norm_num
  rw [this]
  norm_num

theorem specPercent_23_40 : specPercent 23 40 = 58 := by
  unfold specPercent
  rw [Int.floor_eq_iff]
  constructor <;> norm_num

theorem abs_nearestGrid_sub_le (x : ℚ) : |nearestGrid x - x| ≤ 2 ^ ulpExp x / 2 := by
  have hp := two_zpow_pos (ulpExp x)
  have h := abs_roundHalfEven_sub_le (x / 2 ^ ulpExp x)
  have hx : x = x / 2 ^ ulpExp x * 2 ^ ulpExp x := by
    rw [div_mul_cancel₀ _ hp.ne']
  unfold nearestGrid
  have : (roundHalfEven (x / 2 ^ ulpExp x) : ℚ) * 2 ^ ulpExp x - x =
      ((roundHalfEven (x / 2 ^ ulpExp x) : ℚ) - x / 2 ^ ulpExp x) * 2 ^ ulpExp x := by
    rw [sub_mul, div_mul_cancel₀ _ hp.ne']
  rw [this, abs_mul, abs_of_pos hp]
  calc |(roundHalfEven (x / 2 ^ ulpExp x) : ℚ) - x / 2 ^ ulpExp x| * 2 ^ ulpExp x
      ≤ 1 / 2 * 2 ^ ulpExp x := mul_le_mul_of_nonneg_right h hp.le
    _ = 2 ^ ulpExp x / 2 := by ring

theorem ulpExp_le_of_lt {x : ℚ} (k : ℤ) (hx : 0 < x) (h : x < 2 ^ (k + 1)) (hk : -1022 ≤ k) :
    ulpExp x ≤ k - 52 := by
  have : Int.log 2 x < k + 1 :=
    (Int.lt_zpow_iff_log_lt (by norm_num) hx).mp (by exact_mod_cast h)
  unfold ulpExp
  omega

/-- The rounding error of a positive value below `2 ^ (k + 1)` is at most `2 ^ (k - 53)`. -/
theorem roundToDouble_error {x : ℚ} (k : ℤ) (hx : 0 ≤ x) (h : x < 2 ^ (k + 1))
    (hk : -1022 ≤ k) (hk2 : k < 1023) :
    ∃ u, roundToDouble x = .fin u ∧ |u - x| ≤ 2 ^ (k - 53) := by
  rcases hx.lt_or_eq with hpos | hzero
  · have he := ulpExp_le_of_lt k hpos h hk
    have herr := abs_nearestGrid_sub_le x
    have hle : (2 : ℚ) ^ ulpExp x / 2 ≤ 2 ^ (k - 53) := by
      have : (2 : ℚ) ^ (k - 53) = 2 ^ (k - 52) / 2 := by
        rw [show k - 53 = (k - 52) + (-1) by ring, zpow_add₀ (by norm_num : (2 : ℚ) ≠ 0)]
        norm_num
        ring
      rw [this]
      exact div_le_div_of_nonneg_right (zpow_le_zpow_right₀ (by norm_num) he) (by norm_num)
    obtain ⟨u, hu, _, _⟩ := roundToDouble_le_two_zpow (k + 1) (by omega) (by omega) hx h.le
    refine ⟨u, hu, ?_⟩
    unfold roundToDouble at hu
    rw [if_neg (not_le.mpr hpos)] at hu
    split_ifs at hu
    injection hu with hu
    rw [← hu]
    exact herr.trans hle
  · refine ⟨0, ?_, ?_⟩
    · unfold roundToDouble
      rw [if_pos hzero.symm.le]
    · rw [← hzero]
      simpa using (two_zpow_pos (k - 53)).le

theorem ofNat_exact (n : ℕ) (h : n < 2 ^ 53) : JsNumber.ofNat n = .fin n := by
  unfold JsNumber.ofNat
  rcases Nat.eq_zero_or_pos n with h0 | hpos
  · subst h0
    unfold roundToDouble
    simp
  · have hk1 : 2 ^ Nat.log 2 n ≤ n := Nat.pow_log_le_self 2 hpos.ne'
    have hk2 : n < 2 ^ (Nat.log 2 n + 1) := Nat.lt_pow_succ_log_self (by norm_num) n
    have hk52 : Nat.log 2 n ≤ 52 := by
      have : Nat.log 2 n < 53 := Nat.log_lt_of_lt_pow hpos.ne' h
      omega
    have hpow : (2 : ℚ) ^ ((Nat.log 2 n : ℤ) - 52) * 2 ^ (52 - Nat.log 2 n) = 1 := by
      rw [← zpow_natCast, ← zpow_add₀ (by norm_num : (2 : ℚ) ≠ 0)]
      have : ((Nat.log 2 n : ℤ) - 52) + ((52 - Nat.log 2 n : ℕ) : ℤ) = 0 := by omega
      rw [this, zpow_zero]
    have hval : (((n * 2 ^ (52 - Nat.log 2 n) : ℕ) : ℤ) : ℚ) * 2 ^ ((Nat.log 2 n : ℤ) - 52)
        = (n : ℚ) := by
      push_cast
      rw [mul_assoc, mul_comm ((2 : ℚ) ^ (52 - Nat.log 2 n)), hpow, mul_one]
    have := roundToDouble_eq (x := (n : ℚ)) (Nat.log 2 n) ((n * 2 ^ (52 - Nat.log 2 n) : ℕ) : ℤ)
      (by rw [zpow_natCast]; exact_mod_cast hk1)
      (by
        have : ((Nat.log 2 n : ℤ) + 1) = ((Nat.log 2 n + 1 : ℕ) : ℤ) := by push_cast; ring
        rw [this, zpow_natCast]
        exact_mod_cast hk2)
      (by omega)
      (by
        have hd : (n : ℚ) / 2 ^ ((Nat.log 2 n : ℤ) - 52)
            = (((n * 2 ^ (52 - Nat.log 2 n) : ℕ) : ℤ) : ℚ) := by
          rw [div_eq_iff (two_zpow_pos _).ne', hval]
        rw [hd, sub_self, abs_zero]
        norm_num)
      (by
        rw [hval]
        have : (n : ℚ) < 2 ^ (53 : ℤ) := by exact_mod_cast h
        exact this.trans (zpow_lt_zpow_right₀ (by norm_num) (by norm_num)))
    rw [this, hval]

theorem floor_close {u v : ℚ} (h : |u - v| < 1) : |⌊u⌋ - ⌊v⌋| ≤ 1 := by
  rw [abs_lt] at h
  have hu1 := Int.floor_le u
  have hu2 := Int.lt_floor_add_one u
  have hv1 := Int.floor_le v
  have hv2 := Int.lt_floor_add_one v
  rw [abs_le]
  constructor
  · have : (⌊v⌋ : ℚ) < ⌊u⌋ + 2 := by linarith
    have : ⌊v⌋ < ⌊u⌋ + 2 := by exact_mod_cast this
    omega
  · have : (⌊u⌋ : ℚ) < ⌊v⌋ + 2 := by linarith
    have : ⌊u⌋ < ⌊v⌋ + 2 := by exact_mod_cast this
    omega

/-- On byte counts that are exact as Numbers, the double computation is within one of
the exact round-half-up percentage. -/
theorem percentOf_near_spec (l t : Nat) (ht : 0 < t) (hlt : l ≤ t) (ht53 : t < 2 ^ 53) :
    ∃ n : ℤ, percentOf l t = .fin n ∧ |n - specPercent l t| ≤ 1 := by
  obtain ⟨a, b, c, d, ha, hb, hc, hd, hp, ha0, hb1, hc0, hd0⟩ :=
    percentOf_stages l t ht (by omega) (by omega)
  have hal : a = l := by
    rw [ofNat_exact l (by omega)] at ha
    injection ha with ha
    exact ha.symm
  have hbt : b = t := by
    rw [ofNat_exact t ht53] at hb
    injection hb with hb
    exact hb.symm
  subst hal hbt
  have htq : (0 : ℚ) < t := by exact_mod_cast ht
  have hq1 : (l : ℚ) / t ≤ 1 := (div_le_one htq).mpr (by exact_mod_cast hlt)
  have hq0 : (0 : ℚ) ≤ (l : ℚ) / t := div_nonneg (Nat.cast_nonneg l) htq.le
  obtain ⟨c', hc', hce⟩ := roundToDouble_error 0 hq0 (by norm_num; linarith)
    (by norm_num) (by norm_num)
  rw [hc] at hc'
  injection hc' with hc'
  subst hc'
  have hc1 : c ≤ 1 := by
    obtain ⟨u, hu, _, hu1⟩ := roundToDouble_mono hq0 hq1 roundToDouble_one
    rw [hc] at hu
    injection hu with hu
    rw [hu]
    exact hu1
  obtain ⟨d', hd', hde⟩ := roundToDouble_error 6 (by positivity : (0 : ℚ) ≤ c * 100)
    (by norm_num; linarith) (by norm_num) (by norm_num)
  rw [hd] at hd'
  injection hd' with hd'
  subst hd'
  refine ⟨⌊d + 1 / 2⌋, hp, ?_⟩
  unfold specPercent
  apply floor_close
  have hce' : |c - (l : ℚ) / t| ≤ 1 / 1000 := hce.trans (by norm_num)
  have hde' : |d - c * 100| ≤ 1 / 1000 := hde.trans (by norm_num)
  rw [abs_le] at hce' hde'
  rw [abs_lt]
  constructor <;> linarith [hce'.1, hce'.2, hde'.1, hde'.2]

/-! ## C6: progress percentages -/

theorem uploadToS3_snoc (url : JVal) (file : File) (ct : String) (onProgress : Bool)
    (signal : Option AbortSignal) (events : List XhrEvent) (e : XhrEvent) :
    _uploadToS3 url file ct onProgress signal (events ++ [e]) =
      xhrStep onProgress signal.isSome (_uploadToS3 url file ct onProgress signal events) e := by
  simp [_uploadToS3, List.foldl_append]

theorem foldl_xhrStep_sink (hasSignal : Bool) (events : List XhrEvent) (st : XhrState) :
    (events.foldl (xhrStep true hasSignal) st).sink =
      st.sink ++ events.filterMap XhrEvent.reported := by
  induction events generalizing st with
  | nil => simp
  | cons e es ih =>
    rw [List.foldl_cons, ih]
    cases e with
    | progress lc l t => cases lc <;> simp [xhrStep, XhrEvent.reported]
    | load status =>
      by_cases h : status = 200 <;> simp [xhrStep, XhrEvent.reported, h]
    | error => simp [xhrStep, XhrEvent.reported]
    | abortCall =>
      cases hasSignal <;> cases h : st.signalAborted <;> simp [xhrStep, XhrEvent.reported, h]

theorem uploadToS3_sink (url : JVal) (file : File) (ct : String)
    (signal : Option AbortSignal) (events : List XhrEvent) :
    (_uploadToS3 url file ct true signal events).sink = events.filterMap XhrEvent.reported := by
  simp [_uploadToS3, foldl_xhrStep_sink, xhrInit]

theorem reported_eq_known_map (events : List XhrEvent) :
    events.filterMap XhrEvent.reported =
      (events.filterMap XhrEvent.known).map (fun p => percentOf p.1 p.2) := by
  induction events with
  | nil => rfl
  | cons e es ih =>
    cases e with
    | progress lc l t => cases lc <;> simp [XhrEvent.reported, XhrEvent.known, ih]
    | load status => simp [XhrEvent.reported, XhrEvent.known, ih]
    | error => simp [XhrEvent.reported, XhrEvent.known, ih]
    | abortCall => simp [XhrEvent.reported, XhrEvent.known, ih]

/-- C6, as amended.  With a progress sink supplied: (i) an event with a known total
makes `_uploadToS3` pass `Math.round((loaded / total) * 100)`, computed on doubles, to
the sink; when `0 < total`, `loaded ≤ total` and `total < 2 ^ 64` for those events every
value passed is an integer in `[0, 100]`, and for `total < 2 ^ 53` it is within one of
the exact round-half-up percentage; (ii) when the known-total events share one total and
their `loaded` counts do not decrease from one event to the next, the values passed to
the sink are non-decreasing; (iii) an event with an unknown total does not invoke the
sink. -/
theorem uploadToS3_progress (url : JVal) (file : File) (ct : String)
    (signal : Option AbortSignal) (events : List XhrEvent) :
    (∀ loaded total : Nat,
      (_uploadToS3 url file ct true signal (events ++ [.progress true loaded total])).sink =
        (_uploadToS3 url file ct true signal events).sink ++
          [mathRound (((JsNumber.ofNat loaded).div (JsNumber.ofNat total)).mul (.fin 100))]) ∧
    ((∀ p ∈ events.filterMap XhrEvent.known, 0 < p.2 ∧ p.1 ≤ p.2 ∧ p.2 < 2 ^ 64) →
      ∀ v ∈ (_uploadToS3 url file ct true signal events).sink,
        ∃ n : ℤ, v = .fin n ∧ 0 ≤ n ∧ n ≤ 100) ∧
    (∀ loaded total : Nat, 0 < total → loaded ≤ total → total < 2 ^ 53 →
      ∃ n : ℤ,
        (_uploadToS3 url file ct true signal (events ++ [.progress true loaded total])).sink =
          (_uploadToS3 url file ct true signal events).sink ++ [.fin n] ∧
        |n - specPercent loaded total| ≤ 1) ∧
    (∀ total, 0 < total → total < 2 ^ 64 →
      (∀ p ∈ events.filterMap XhrEvent.known, p.2 = total ∧ p.1 < 2 ^ 64) →
      ((events.filterMap XhrEvent.known).map Prod.fst).Chain' (· ≤ ·) →
      ((_uploadToS3 url file ct true signal events).sink).Pairwise
        (fun a b => a.le b = true)) ∧
    (∀ loaded total : Nat,
      (_uploadToS3 url file ct true signal (events ++ [.progress false loaded total])).sink =
        (_uploadToS3 url file ct true signal events).sink) := by
  refine ⟨?_, ?_, ?_, ?_, ?_⟩
  · intro loaded total
    rw [uploadToS3_snoc]
    simp [xhrStep, percentOf]
  · intro h v hv
    rw [uploadToS3_sink, reported_eq_known_map, List.mem_map] at hv
    obtain ⟨p, hp, rfl⟩ := hv
    exact percentOf_bounds p.1 p.2 (h p hp).1 (h p hp).2.1 (h p hp).2.2
  · intro loaded total ht hlt h53
    obtain ⟨n, hn, hclose⟩ := percentOf_near_spec loaded total ht hlt h53
    refine ⟨n, ?_, hclose⟩
    rw [uploadToS3_snoc]
    simp [xhrStep, hn]
  · intro total ht ht64 hall hchain
    rw [uploadToS3_sink, reported_eq_known_map]
    have hpw : ((events.filterMap XhrEvent.known).map Prod.fst).Pairwise (· ≤ ·) :=
      List.chain'_iff_pairwise.mp hchain
    rw [List.pairwise_map] at hpw ⊢
    refine List.Pairwise.imp_of_mem ?_ hpw
    intro a b ha hb hab
    have h1 := percentOf_mono a.1 b.1 total ht hab (hall b hb).2 ht64
    rw [(hall a ha).1, (hall b hb).1]
    exact h1
  · intro loaded total
    rw [uploadToS3_snoc]
    simp [xhrStep]

/-- C6 as amended, on a 10-byte upload reporting 1, 5 and 10 bytes around an event without
a known total: the sink values are integers in `[0, 100]` and non-decreasing, and a
further event at 23 of 40 bytes passes a value within one of the exact percentage. -/
theorem uploadToS3_progress_witness :
    (∀ v ∈ (_uploadToS3 (.str "https://storage.example/U1") demoFile "text/plain" true none
        [.progress true 1 10, .progress false 3 0, .progress true 5 10,
         .progress true 10 10, .load 200]).sink, ∃ n : ℤ, v = .fin n ∧ 0 ≤ n ∧ n ≤ 100) ∧
    (∃ n : ℤ,
      (_uploadToS3 (.str "https://storage.example/U1") demoFile "text/plain" true none
        ([.progress true 1 10, .progress false 3 0, .progress true 5 10,
          .progress true 10 10, .load 200] ++ [.progress true 23 40])).sink =
        (_uploadToS3 (.str "https://storage.example/U1") demoFile "text/plain" true none
          [.progress true 1 10, .progress false 3 0, .progress true 5 10,
           .progress true 10 10, .load 200]).sink ++ [.fin n] ∧
      |n - specPercent 23 40| ≤ 1) ∧
    ((_uploadToS3 (.str "https://storage.example/U1") demoFile "text/plain" true none
        [.progress true 1 10, .progress false 3 0, .progress true 5 10,
         .progress true 10 10, .load 200]).sink).Pairwise (fun a b => a.le b = true) :=
  ⟨(uploadToS3_progress (.str "https://storage.example/U1") demoFile "text/plain" none
      [.progress true 1 10, .progress false 3 0, .progress true 5 10,
       .progress true 10 10, .load 200]).2.1 (by decide),
   (uploadToS3_progress (.str "https://storage.example/U1") demoFile "text/plain" none
      [.progress true 1 10, .progress false 3 0, .progress true 5 10,
       .progress true 10 10, .load 200]).2.2.1 23 40 (by decide) (by decide) (by decide),
   (uploadToS3_progress (.str "https://storage.example/U1") demoFile "text/plain" none
      [.progress true 1 10, .progress false 3 0, .progress true 5 10,
       .progress true 10 10, .load 200]).2.2.2.1 10 (by decide) (by decide) (by decide)
      (by simp [XhrEvent.known])⟩

/-- C6 as stated fails at 23 of 40 bytes: the exact percentage 57.5 rounds half up to
58, but in doubles `23 / 40 * 100` is `57.49999999999999` and the sink receives 57. -/
theorem progress_23_of_40 :
    (_uploadToS3 (.str "https://storage.example/U1") demoFile "text/plain" true none
        [.progress true 23 40]).sink = [.fin 57] ∧
    specPercent 23 40 = 58 ∧
    (_uploadToS3 (.str "https://storage.example/U1") demoFile "text/plain" true none
        [.progress true 23 40]).sink ≠ [.fin ((specPercent 23 40 : ℤ) : ℚ)] := by
  have hs : (_uploadToS3 (.str "https://storage.example/U1") demoFile "text/plain" true none
      [.progress true 23 40]).sink = [.fin 57] := by
    simp [uploadToS3_sink, XhrEvent.reported, percentOf_23_40]
  refine ⟨hs, specPercent_23_40, ?_⟩
  rw [hs, specPercent_23_40]
  norm_num

/-! ## C4: a signal aborted before the executor starts -/

/-- While only progress events have been delivered the promise is pending and the
signal keeps the state it had at the start. -/
theorem foldl_xhrStep_progress (onProgress hasSignal : Bool) (pre : List XhrEvent)
    (hpre : ∀ e ∈ pre, ∃ lc l t, e = .progress lc l t) (st : XhrState) :
    (pre.foldl (xhrStep onProgress hasSignal) st).promise = st.promise ∧
    (pre.foldl (xhrStep onProgress hasSignal) st).signalAborted = st.signalAborted := by
  induction pre generalizing st with
  | nil => exact ⟨rfl, rfl⟩
  | cons e es ih =>
    obtain ⟨lc, l, t, rfl⟩ := hpre e (by simp)
    have ih2 := ih (fun e he => hpre e (by simp [he]))
      (xhrStep onProgress hasSignal st (.progress lc l t))
    rw [List.foldl_cons]
    refine ⟨ih2.1.trans ?_, ih2.2.trans ?_⟩ <;>
      cases onProgress <;> cases lc <;> simp [xhrStep]

/-- A settled promise stays as it is, whatever is delivered later. -/
theorem foldl_xhrStep_settled (onProgress hasSignal : Bool) (post : List XhrEvent)
    (st : XhrState) (h : st.promise ≠ .pending) :
    (post.foldl (xhrStep onProgress hasSignal) st).promise = st.promise := by
  induction post generalizing st with
  | nil => rfl
  | cons e es ih =>
    have hstep : (xhrStep onProgress hasSignal st e).promise = st.promise := by
      cases hp : st.promise with
      | pending => exact absurd hp h
      | fulfilled a =>
        cases e <;> simp only [xhrStep] <;> (repeat' split) <;> simp [Settled.settle, hp]
      | rejected err =>
        cases e <;> simp only [xhrStep] <;> (repeat' split) <;> simp [Settled.settle, hp]
    rw [List.foldl_cons, ih _ (by rw [hstep]; exact h), hstep]

/-- The part of C4 that holds: a signal that is not yet aborted when the executor
starts and is signalled before `load` or `error` makes the promise reject with the
`AbortError` exception. -/
theorem uploadToS3_abort_in_flight (url : JVal) (file : File) (ct : String)
    (onProgress : Bool) (pre post : List XhrEvent)
    (hpre : ∀ e ∈ pre, ∃ lc l t, e = .progress lc l t) :
    (_uploadToS3 url file ct onProgress (some { aborted := false })
        (pre ++ .abortCall :: post)).promise =
      .rejected (mkDOMException "Upload cancelled" "AbortError") := by
  unfold _uploadToS3
  rw [List.foldl_append, List.foldl_cons]
  obtain ⟨h1, h2⟩ := foldl_xhrStep_progress onProgress true pre hpre
    (xhrInit (some { aborted := false }))
  have hstep : (xhrStep onProgress true
      (pre.foldl (xhrStep onProgress true) (xhrInit (some { aborted := false })))
      .abortCall).promise = .rejected (mkDOMException "Upload cancelled" "AbortError") := by
    simp only [xhrInit] at h1 h2
    simp [xhrStep, h1, h2, xhrInit, Settled.settle]
  rw [Option.isSome_some, foldl_xhrStep_settled _ _ _ _ (by rw [hstep]; simp), hstep]

/-- C4 fails when the signal is already aborted as the executor starts: the listener
is never invoked, the transfer is carried out and the promise is fulfilled, also when
the controller is signalled again meanwhile; `uploadFile` reaches the executor with such
a signal and resolves. -/
theorem uploadToS3_signal_aborted_before_start :
    (_uploadToS3 (.str "https://storage.example/U1") demoFile "text/plain" false
        (some { aborted := true }) [.load 200]).promise = .fulfilled () ∧
    (_uploadToS3 (.str "https://storage.example/U1") demoFile "text/plain" false
        (some { aborted := true }) [.abortCall, .load 200]).promise = .fulfilled () ∧
    (_uploadToS3 (.str "https://storage.example/U1") demoFile "text/plain" false
        (some { aborted := true }) [.load 200]).xhrAborted = false ∧
    (uploadFile demoClient (demoWorld ack [.load 200]) demoFile
        { signal := some { aborted := true } } St.init).1 =
      .fulfilled { uuid := .str "U1", filename := "a.txt", size := 10,
                   contentType := "text/plain", token := .str "T1" } := by
  decide

/-! ## C5: the kind of the cancellation error -/

/-- C5 fails in `uploadFile`: a transfer cancelled in flight makes `uploadFile` reject
with a plain `Error` (message `Upload failed: Upload cancelled`), of the same kind as the
error for a failed storage transfer; `uploadFileWithTokenUrl` rejects with the
`AbortError` exception in the same world. -/
theorem uploadFile_wraps_cancellation :
    (uploadFile demoClient (demoWorld ack [.progress true 3 10, .abortCall]) demoFile
        { signal := some { aborted := false } } St.init).1 =
      .rejected { name := "Error", message := "Upload failed: Upload cancelled" } ∧
    (uploadFile demoClient (demoWorld ack [.progress true 3 10, .error]) demoFile
        { signal := some { aborted := false } } St.init).1 =
      .rejected { name := "Error", message := "Upload failed: S3 upload failed" } ∧
    (uploadFileWithTokenUrl demoClient (demoWorld ack [.progress true 3 10, .abortCall])
        (.str "http://localhost:8080/upload/T1") demoFile false
        { signal := some { aborted := false } } St.init).1 =
      .rejected { name := "AbortError", message := "Upload cancelled" } := by
  decide

/-! ## C7: the self-service upload and the completion notification -/

/-- C7 fails in `uploadFile`: in the scenario of the 10-byte file `a.txt` with
`maxUploads = 1`, every step succeeds and the call resolves with identifier `U1`, yet
its requests are the token request, the URL exchange and the storage PUT only; the
delegated flow exchanging the same URL ends with the completion notification. -/
theorem uploadFile_omits_completion :
    (uploadFile demoClient (demoWorld ack [.progress true 10 10, .load 200]) demoFile
        { maxUploads := .num 1, onProgress := true } St.init).1 =
      .fulfilled { uuid := .str "U1", filename := "a.txt", size := 10,
                   contentType := "text/plain", token := .str "T1" } ∧
    (uploadFile demoClient (demoWorld ack [.progress true 10 10, .load 200]) demoFile
        { maxUploads := .num 1, onProgress := true } St.init).2.trace =
      [uploadFile.tokenRequest demoClient { maxUploads := .num 1 },
       uploadFile.presignedRequest (.str "http://localhost:8080/upload/T1") demoFile,
       putRequest (.str "https://storage.example/U1") demoFile "text/plain"] ∧
    completeUpload.request demoClient (.str "U1") ∉
      (uploadFile demoClient (demoWorld ack [.progress true 10 10, .load 200]) demoFile
        { maxUploads := .num 1, onProgress := true } St.init).2.trace ∧
    (uploadFileWithTokenUrl demoClient (demoWorld ack [.progress true 10 10, .load 200])
        (.str "http://localhost:8080/upload/T1") demoFile true {} St.init).2.trace =
      [uploadFileWithTokenUrl.presignedRequest (.str "http://localhost:8080/upload/T1") demoFile,
       putRequest (.str "https://storage.example/U1") demoFile "text/plain",
       completeUpload.request demoClient (.str "U1")] := by
  decide

/-! ## C10: the content type of the storage PUT -/

/-- C10 fails for a file of unknown type (`file.type` empty): both upload flows declare
`application/octet-stream` in the URL exchange, and `uploadFile` reports it in its
result, but the storage PUT carries an empty `Content-Type` header. -/
theorem untyped_file_content_type_mismatch :
    (uploadFile demoClient (demoWorld ack [.load 200]) untypedFile {} St.init).2.trace =
      [uploadFile.tokenRequest demoClient {},
       { method := .POST, url := .str "http://localhost:8080/upload/T1",
         headers := [("Content-Type", "application/json")],
         body := .json [("filename", .str "data"),
                        ("content_type", .str "application/octet-stream"),
                        ("size", .num 10)] },
       { method := .PUT, url := .str "https://storage.example/U1",
         headers := [("Content-Type", "")], body := .file untypedFile }] ∧
    (uploadFile demoClient (demoWorld ack [.load 200]) untypedFile {} St.init).1 =
      .fulfilled { uuid := .str "U1", filename := "data", size := 10,
                   contentType := "application/octet-stream", token := .str "T1" } ∧
    (uploadFileWithTokenUrl demoClient (demoWorld ack [.load 200])
        (.str "http://localhost:8080/upload/T1") untypedFile false {} St.init).2.trace =
      [{ method := .POST, url := .str "http://localhost:8080/upload/T1",
         headers := [("Content-Type", "application/json")],
         body := .json [("filename", .str "data"),
                        ("content_type", .str "application/octet-stream"),
                        ("size", .num 10)] },
       { method := .PUT, url := .str "https://storage.example/U1",
         headers := [("Content-Type", "")], body := .file untypedFile },
       completeUpload.request demoClient (.str "U1")] := by
  decide

end ArtifactService
